import Mathlib

/-!
# EventFlow dashboard: verification of the realtime-simulation and analytics core

Shallow embedding of the EventFlow dashboard's core (entity generator,
realtime simulator, session-analytics service, aggregate-analytics service)
together with theorems settling the specified properties.

JavaScript numbers are modelled as exact rationals (`ℚ`), except where a
computation can produce `NaN` or `Infinity`; those spots use the `JSNum`
type below.  Randomness (`Math.random()` calls) is modelled by explicit
oracle parameters: each generated entity or mutation pass receives the
stream of draws it consumes.  JavaScript `Array.prototype.sort` (stable
since ES2019) is modelled as a merge sort over index-tagged elements,
which is the unique stable result for a consistent comparator.
-/

namespace EventFlow

/-! ## JS numeric semantics where NaN / Infinity can arise -/

/-- A JavaScript number that may be `NaN` or an infinity.  Finite values are
exact rationals. -/
inductive JSNum where
  | nan : JSNum
  | posInf : JSNum
  | negInf : JSNum
  | num : ℚ → JSNum
deriving DecidableEq, Repr

/-- JS `Math.round` on a finite value: round half toward positive infinity. -/
def jsRound (q : ℚ) : ℤ := ⌊q + 1/2⌋

/-- JS division of two finite numbers: `0/0 = NaN`, `x/0 = ±Infinity`. -/
def jsDiv (a b : ℚ) : JSNum :=
  if b = 0 then
    if a = 0 then .nan else if 0 < a then .posInf else .negInf
  else .num (a / b)

/-- JS multiplication of a finite number by a possibly non-finite one. -/
def jsMulQ (q : ℚ) (x : JSNum) : JSNum :=
  match x with
  | .nan => .nan
  | .posInf => if q = 0 then .nan else if 0 < q then .posInf else .negInf
  | .negInf => if q = 0 then .nan else if 0 < q then .negInf else .posInf
  | .num r => .num (q * r)

/-- JS division of a possibly non-finite number by a finite one. -/
def jsDivN (x : JSNum) (b : ℚ) : JSNum :=
  match x with
  | .nan => .nan
  | .posInf => if b = 0 then .posInf else if 0 < b then .posInf else .negInf
  | .negInf => if b = 0 then .negInf else if 0 < b then .negInf else .posInf
  | .num a => jsDiv a b

/-- JS `Math.round` extended to non-finite values (`Math.round(NaN) = NaN`). -/
def jsRoundN (x : JSNum) : JSNum :=
  match x with
  | .num q => .num (jsRound q)
  | x => x

/-- JS truthiness of a number: `NaN` and `0` are falsy. -/
def jsTruthy (x : JSNum) : Bool :=
  match x with
  | .nan => false
  | .num q => q != 0
  | _ => true

/-- JS `x || d` on numbers. -/
def jsOr (x d : JSNum) : JSNum := if jsTruthy x then x else d

/-- JS `x < c` for a possibly non-finite `x` and finite `c`
(`NaN < c` is `false`). -/
def jsLt (x : JSNum) (c : ℚ) : Bool :=
  match x with
  | .num q => q < c
  | .negInf => true
  | _ => false

/-- Code: `Math.round((att / cap) * 100)` as written for attendance rates. -/
def ratePct (att cap : ℚ) : JSNum := jsRoundN (jsMulQ 100 (jsDiv att cap))

/-! ## Data model (plain records of the JS object graph) -/

/-- Session lifecycle status. -/
inductive Status where
  | upcoming : Status
  | active : Status
  | completed : Status
deriving DecidableEq, Repr

/-- Numeric order of a status along the forward-only lifecycle. -/
def statusOrd : Status → ℕ
  | .upcoming => 0
  | .active => 1
  | .completed => 2

/-- The `ratings` record of a feedback entry. -/
structure Ratings where
  content : ℚ
  presentation : ℚ
  relevance : ℚ
  overall : ℚ
deriving DecidableEq, Repr

/-- A feedback record. -/
structure Feedback where
  id : String
  sessionId : String
  attendeeId : String
  attendeeName : String
  ratings : Ratings
  comment : String
  timestamp : String
  helpful : ℚ
  verified : Bool
deriving DecidableEq, Repr

/-- A session record.  `averageRating` is `none` when the JS object lacks
the property (`undefined`). -/
structure Session where
  id : String
  title : String
  speaker : String
  speakerId : String
  room : String
  time : String
  startHour : ℚ
  startMinute : ℚ
  duration : ℚ
  capacity : ℚ
  currentAttendance : ℚ
  attendanceRate : JSNum
  engagement : ℚ
  status : Status
  tags : List String
  description : String
  rating : ℚ
  averageRating : Option ℚ
  feedback : List Feedback
deriving DecidableEq, Repr

/-- A speaker record (fields beyond those read by the core are kept as data). -/
structure Speaker where
  id : String
  name : String
  title : String
  company : String
  sessions : ℚ
  totalAttendees : ℚ
  avgEngagement : ℚ
  rating : ℚ
deriving DecidableEq, Repr

/-- An attendee record. -/
structure Attendee where
  id : String
  name : String
  email : String
  company : String
  role : String
  registeredSessions : List String
  attendedSessions : List String
  engagementScore : ℚ
  joinedAt : String
deriving DecidableEq, Repr

/-- The simulator's `metrics` object. -/
structure Metrics where
  totalSessions : ℚ
  activeSessions : ℚ
  totalAttendees : ℚ
  avgEngagement : JSNum
  totalFeedback : ℚ
  avgRating : JSNum
deriving DecidableEq, Repr

/-- The simulator's canonical data object.  `updateCount` is `none` when the
JS object lacks the property: `generateInitialData` does not set it; only the
snapshot spread in `notifySubscribers` adds it. -/
structure SimData where
  sessions : List Session
  speakers : List Speaker
  attendees : List Attendee
  feedback : List Feedback
  metrics : Metrics
  lastUpdated : String
  updateCount : Option ℤ
deriving DecidableEq, Repr

/-- Placeholder record used as the out-of-range default for list indexing
(JS would yield `undefined`; all theorems restrict indices to be in range). -/
def defaultSession : Session :=
  { id := "", title := "", speaker := "", speakerId := "", room := "", time := ""
    startHour := 0, startMinute := 0, duration := 0, capacity := 0
    currentAttendance := 0, attendanceRate := .num 0, engagement := 0
    status := .upcoming, tags := [], description := "", rating := 0
    averageRating := none, feedback := [] }

/-! ## JS stable sort

`Array.prototype.sort` is stable (ES2019).  For a comparator of the form
`(a, b) => key(b) - key(a)` (respectively `key(a) - key(b)`), the stable
result is the unique permutation that is sorted by the key (descending,
respectively ascending) with ties in original-index order.  We model it as
a merge sort over index-tagged elements under that lexicographic order. -/

/-- The descending-by-key stable sort, before the index tags are dropped. -/
def descTagged (key : α → ℚ) (xs : List α) : List (ℕ × α) :=
  (xs.enum).mergeSort fun p q =>
    decide (key q.2 < key p.2 ∨ (key p.2 = key q.2 ∧ p.1 ≤ q.1))

/-- JS `xs.sort((a, b) => key(b) - key(a))`: stable descending sort. -/
def jsSortDescBy (key : α → ℚ) (xs : List α) : List α :=
  (descTagged key xs).map Prod.snd

/-- The ascending-by-key stable sort, before the index tags are dropped. -/
def ascTagged (key : α → ℚ) (xs : List α) : List (ℕ × α) :=
  (xs.enum).mergeSort fun p q =>
    decide (key p.2 < key q.2 ∨ (key p.2 = key q.2 ∧ p.1 ≤ q.1))

/-- JS `xs.sort((a, b) => key(a) - key(b))`: stable ascending sort. -/
def jsSortAscBy (key : α → ℚ) (xs : List α) : List α :=
  (ascTagged key xs).map Prod.snd

/-- JS `Array.prototype.indexOf` (`-1` when absent). -/
def jsIndexOf [DecidableEq α] (xs : List α) (a : α) : ℤ :=
  if a ∈ xs then List.indexOf a xs else -1

theorem descTagged_perm (key : α → ℚ) (xs : List α) :
    (descTagged key xs).Perm xs.enum :=
  List.mergeSort_perm _ _

theorem jsSortDescBy_perm (key : α → ℚ) (xs : List α) :
    (jsSortDescBy key xs).Perm xs := by
  have h := (descTagged_perm key xs).map Prod.snd
  rwa [List.enum_map_snd] at h

theorem ascTagged_perm (key : α → ℚ) (xs : List α) :
    (ascTagged key xs).Perm xs.enum :=
  List.mergeSort_perm _ _

theorem jsSortAscBy_perm (key : α → ℚ) (xs : List α) :
    (jsSortAscBy key xs).Perm xs := by
  have h := (ascTagged_perm key xs).map Prod.snd
  rwa [List.enum_map_snd] at h

theorem descTagged_pairwise (key : α → ℚ) (xs : List α) :
    (descTagged key xs).Pairwise
      (fun p q => key q.2 < key p.2 ∨ (key p.2 = key q.2 ∧ p.1 ≤ q.1)) := by
  have h := @List.sorted_mergeSort (ℕ × α)
    (fun p q =>
      decide (key q.2 < key p.2 ∨ (key p.2 = key q.2 ∧ p.1 ≤ q.1)))
    (fun a b c hab hbc => by
      simp only [decide_eq_true_eq] at *
      rcases hab with h1 | ⟨h1, h1'⟩ <;> rcases hbc with h2 | ⟨h2, h2'⟩
      · exact Or.inl (h2.trans h1)
      · exact Or.inl (h2 ▸ h1)
      · exact Or.inl (h1 ▸ h2)
      · exact Or.inr ⟨h1.trans h2, h1'.trans h2'⟩)
    (fun a b => by
      simp only [Bool.or_eq_true, decide_eq_true_eq]
      rcases lt_trichotomy (key a.2) (key b.2) with h | h | h
      · exact Or.inr (Or.inl h)
      · rcases Nat.le_total a.1 b.1 with h' | h'
        · exact Or.inl (Or.inr ⟨h, h'⟩)
        · exact Or.inr (Or.inr ⟨h.symm, h'⟩)
      · exact Or.inl (Or.inl h))
    xs.enum
  refine h.imp ?_
  simp only [decide_eq_true_eq]
  exact fun h => h

theorem ascTagged_pairwise (key : α → ℚ) (xs : List α) :
    (ascTagged key xs).Pairwise
      (fun p q => key p.2 < key q.2 ∨ (key p.2 = key q.2 ∧ p.1 ≤ q.1)) := by
  have h := @List.sorted_mergeSort (ℕ × α)
    (fun p q =>
      decide (key p.2 < key q.2 ∨ (key p.2 = key q.2 ∧ p.1 ≤ q.1)))
    (fun a b c hab hbc => by
      simp only [decide_eq_true_eq] at *
      rcases hab with h1 | ⟨h1, h1'⟩ <;> rcases hbc with h2 | ⟨h2, h2'⟩
      · exact Or.inl (h1.trans h2)
      · exact Or.inl (h2 ▸ h1)
      · exact Or.inl (h1 ▸ h2)
      · exact Or.inr ⟨h1.trans h2, h1'.trans h2'⟩)
    (fun a b => by
      simp only [Bool.or_eq_true, decide_eq_true_eq]
      rcases lt_trichotomy (key a.2) (key b.2) with h | h | h
      · exact Or.inl (Or.inl h)
      · rcases Nat.le_total a.1 b.1 with h' | h'
        · exact Or.inl (Or.inr ⟨h, h'⟩)
        · exact Or.inr (Or.inr ⟨h.symm, h'⟩)
      · exact Or.inr (Or.inl h))
    xs.enum
  refine h.imp ?_
  simp only [decide_eq_true_eq]
  exact fun h => h

theorem jsSortDescBy_pairwise (key : α → ℚ) (xs : List α) :
    (jsSortDescBy key xs).Pairwise (fun a b => key b ≤ key a) := by
  refine (descTagged_pairwise key xs).map Prod.snd ?_
  rintro a b (h | ⟨h, -⟩)
  · exact h.le
  · exact h.ge

theorem jsSortAscBy_pairwise (key : α → ℚ) (xs : List α) :
    (jsSortAscBy key xs).Pairwise (fun a b => key a ≤ key b) := by
  refine (ascTagged_pairwise key xs).map Prod.snd ?_
  rintro a b (h | ⟨h, -⟩)
  · exact h.le
  · exact h.le

theorem jsSortDescBy_length (key : α → ℚ) (xs : List α) :
    (jsSortDescBy key xs).length = xs.length :=
  (jsSortDescBy_perm key xs).length_eq

/-- An enum pair of a duplicate-free list recovers its index via `jsIndexOf`. -/
theorem jsIndexOf_of_mem_enum [DecidableEq α] {xs : List α} (hnd : xs.Nodup)
    {p : ℕ × α} (hp : p ∈ xs.enum) : jsIndexOf xs p.2 = p.1 := by
  rw [List.mem_enum_iff_getElem?] at hp
  have hlt : p.1 < xs.length := (List.getElem?_eq_some_iff.mp hp).1
  have hval : xs[p.1] = p.2 := by
    simpa [List.getElem?_eq_getElem hlt] using hp
  have hmem : p.2 ∈ xs := hval ▸ xs.getElem_mem hlt
  simp only [jsIndexOf, if_pos hmem]
  exact_mod_cast hval ▸ List.indexOf_getElem hnd p.1 hlt

/-- On a duplicate-free list, ties in the descending stable sort keep the
original order: equal-key elements appear in increasing `jsIndexOf` order. -/
theorem jsSortDescBy_stable [DecidableEq α] (key : α → ℚ) (xs : List α)
    (hnd : xs.Nodup) :
    (jsSortDescBy key xs).Pairwise
      (fun a b => key a = key b → jsIndexOf xs a ≤ jsIndexOf xs b) := by
  unfold jsSortDescBy
  rw [List.pairwise_map]
  refine ((descTagged_pairwise key xs).imp_of_mem ?_)
  intro p q hp hq hpq
  have hp' : p ∈ xs.enum := (descTagged_perm key xs).mem_iff.mp hp
  have hq' : q ∈ xs.enum := (descTagged_perm key xs).mem_iff.mp hq
  intro hk
  rcases hpq with h | ⟨-, h⟩
  · exact absurd (hk ▸ h) (lt_irrefl _)
  · rw [jsIndexOf_of_mem_enum hnd hp', jsIndexOf_of_mem_enum hnd hq']
    exact_mod_cast h

/-! ## Entity generator (`mockDataGenerator.js`) -/

def SESSION_TOPICS : List String :=
  ["Keynote: Future of Web Development", "React Performance Optimization",
   "Building Scalable Microservices", "Cloud Native Architecture",
   "Machine Learning in JavaScript", "DevOps Best Practices",
   "Accessibility in Modern Web Apps", "State Management Patterns",
   "GraphQL vs REST APIs", "Security in Web Applications",
   "Progressive Web Apps", "Testing Strategies", "CI/CD Pipeline Design",
   "Kubernetes for Developers", "Serverless Architecture"]

def SPEAKER_NAMES : List String :=
  ["Dr. Sarah Chen", "Michael Rodriguez", "Emily Johnson", "James Wilson",
   "Maria Garcia", "David Kim", "Lisa Anderson", "Robert Taylor",
   "Jennifer Martinez", "Christopher Lee", "Amanda White", "Daniel Brown",
   "Jessica Davis", "Matthew Miller", "Sophia Thompson"]

def ROOM_NAMES : List String :=
  ["Main Auditorium", "Conference Room A", "Conference Room B",
   "Innovation Lab", "Workshop Space", "Tech Hub", "Collaboration Zone",
   "Virtual Studio"]

def COMPANIES : List String :=
  ["TechCorp", "InnovateLabs", "CloudSystems", "DataDynamics", "WebWorks",
   "AppForge", "CodeCraft", "DigitalHub", "FutureTech", "SmartSoft"]

def SPEAKER_TITLES : List String :=
  ["Senior Developer", "Tech Lead", "Chief Architect", "VP Engineering", "CTO"]

def GEN_TAGS : List String := ["Technology", "Innovation", "Workshop"]

def FIRST_NAMES : List String :=
  ["John", "Jane", "Mike", "Sarah", "David", "Emily", "Chris", "Lisa"]

def LAST_NAMES : List String :=
  ["Smith", "Johnson", "Williams", "Brown", "Jones", "Garcia", "Miller", "Davis"]

def ROLES : List String :=
  ["Developer", "Manager", "Architect", "Designer", "Analyst"]

def GEN_COMMENTS : List String :=
  ["Great presentation! Very informative.", "Excellent content and delivery.",
   "Good session, could use more examples.", "Very engaging speaker.",
   "Helpful and practical information.", "Well organized and clear.",
   "Inspiring talk!", "Learned a lot of new concepts."]

/-- Result of `generateTimeSlot` (the JS field `end` is called `stop` here). -/
structure TimeSlot where
  start : String
  stop : String
  startHour : ℕ
  startMinute : ℕ
deriving DecidableEq, Repr

/-- The inner `formatTime` helper of `generateTimeSlot`. -/
def formatTime (hour minute : ℕ) : String :=
  let period := if hour ≥ 12 then "PM" else "AM"
  let displayHour := if hour > 12 then hour - 12 else hour
  toString displayHour ++ ":" ++
    (if minute < 10 then "0" ++ toString minute else toString minute) ++
    " " ++ period

/-- Code: `generateTimeSlot(index)`: `Math.floor(index * 1.5)` is `3 * index / 2`
in exact arithmetic. -/
def generateTimeSlot (index : ℕ) : TimeSlot :=
  let startHour := 9 + 3 * index / 2
  let startMinute := index % 2 * 30
  let endHour := startHour + 1
  let endMinute := startMinute
  { start := formatTime startHour startMinute
    stop := formatTime endHour endMinute
    startHour, startMinute }

/-- Code: `generateSession(id, index)`; `rnd k` is the `k`-th `Math.random()`
drawn while generating this session. -/
def generateSession (rnd : ℕ → ℚ) (id index : ℕ) : Session :=
  let timeSlot := generateTimeSlot index
  let capacity : ℚ := 50 + (⌊rnd 0 * 150⌋ : ℤ)
  let currentAttendance : ℚ := (⌊capacity * (1/2 + rnd 1 * (1/2))⌋ : ℤ)
  let speakerIndex := (⌊rnd 2 * (SPEAKER_NAMES.length : ℚ)⌋).toNat
  let title := SESSION_TOPICS.getD (index % SESSION_TOPICS.length) ""
  { id := "session-" ++ toString id
    title
    speaker := SPEAKER_NAMES.getD speakerIndex ""
    speakerId := "speaker-" ++ toString speakerIndex
    room := ROOM_NAMES.getD (⌊rnd 3 * (ROOM_NAMES.length : ℚ)⌋).toNat ""
    time := timeSlot.start ++ " - " ++ timeSlot.stop
    startHour := timeSlot.startHour
    startMinute := timeSlot.startMinute
    duration := 60
    capacity
    currentAttendance
    attendanceRate := ratePct currentAttendance capacity
    engagement := 60 + (⌊rnd 4 * 35⌋ : ℤ)
    status := if index < 4 then .completed else if index < 8 then .active
      else .upcoming
    tags := GEN_TAGS.take (1 + (⌊rnd 5 * 2⌋).toNat)
    description := "Join us for an engaging session on " ++ title ++
      ". This session will cover key concepts and practical applications."
    rating := 7/2 + rnd 6 * (3/2)
    averageRating := none
    feedback := [] }

/-- Code: `generateSpeaker(id, name)`. -/
def generateSpeaker (rnd : ℕ → ℚ) (id : ℕ) (name : String) : Speaker :=
  { id := "speaker-" ++ toString id
    name
    title := SPEAKER_TITLES.getD (⌊rnd 4 * 5⌋).toNat ""
    company := COMPANIES.getD (⌊rnd 5 * 10⌋).toNat ""
    sessions := 2 + (⌊rnd 0 * 3⌋ : ℤ)
    totalAttendees := 100 + (⌊rnd 1 * 400⌋ : ℤ)
    avgEngagement := 65 + (⌊rnd 2 * 30⌋ : ℤ)
    rating := 7/2 + rnd 3 * (3/2) }

/-- Code: `generateAttendee(id)`; the `joinedAt` date string is oracle-provided. -/
def generateAttendee (rnd : ℕ → ℚ) (id : ℕ) (joined : String) : Attendee :=
  let firstName := FIRST_NAMES.getD (⌊rnd 0 * 8⌋).toNat ""
  let lastName := LAST_NAMES.getD (⌊rnd 1 * 8⌋).toNat ""
  { id := "attendee-" ++ toString id
    name := firstName ++ " " ++ lastName
    email := firstName.toLower ++ "." ++ lastName.toLower ++ "@example.com"
    company := COMPANIES.getD (⌊rnd 2 * 10⌋).toNat ""
    role := ROLES.getD (⌊rnd 3 * 5⌋).toNat ""
    registeredSessions := []
    attendedSessions := []
    engagementScore := 50 + (⌊rnd 4 * 50⌋ : ℤ)
    joinedAt := joined }

/-- Code: `generateFeedback(sessionId, attendeeId, attendeeName)`; the id and
timestamp strings are oracle-provided. -/
def generateFeedbackGen (rnd : ℕ → ℚ) (fid ts sessionId attendeeId
    attendeeName : String) : Feedback :=
  { id := fid
    sessionId
    attendeeId
    attendeeName
    ratings :=
      { content := 3 + (⌊rnd 0 * 3⌋ : ℤ)
        presentation := 3 + (⌊rnd 1 * 3⌋ : ℤ)
        relevance := 3 + (⌊rnd 2 * 3⌋ : ℤ)
        overall := 3 + (⌊rnd 3 * 3⌋ : ℤ) }
    comment := GEN_COMMENTS.getD (⌊rnd 4 * 8⌋).toNat ""
    timestamp := ts
    helpful := (⌊rnd 5 * 20⌋ : ℤ)
    verified := rnd 6 > 1/5 }

/-- Oracle for the whole of `generateInitialData`: explicit streams of
`Math.random()` draws indexed per generated entity, and the date strings. -/
structure GenOracle where
  sRnd : ℕ → ℕ → ℚ
  spRnd : ℕ → ℕ → ℚ
  aRnd : ℕ → ℕ → ℚ
  fbRnd : ℕ → ℕ → ℕ → ℚ
  fbId : ℕ → ℕ → String
  nowStr : String

/-- One iteration of the inner registration loop of `generateInitialData`
for attendee `i`: pick a random session; if not yet selected, register it,
then maybe mark it attended and maybe emit feedback.  The accumulator is
`(selectedSessions, attendedSessions, emitted feedback)`. -/
def regStep (sessions : List Session) (g : GenOracle) (i : ℕ)
    (attId attName : String)
    (acc : List String × List String × List Feedback) (j : ℕ) :
    List String × List String × List Feedback :=
  let (selected, attended, fbs) := acc
  let session :=
    sessions.getD (⌊g.aRnd i (7 + 3 * j) * (sessions.length : ℚ)⌋).toNat
      defaultSession
  if session.id ∈ selected then acc
  else
    let selected := selected ++ [session.id]
    if session.status = .completed ∧ g.aRnd i (8 + 3 * j) > 1/5 then
      let attended := attended ++ [session.id]
      if g.aRnd i (9 + 3 * j) > 3/5 then
        (selected, attended,
          fbs ++ [generateFeedbackGen (g.fbRnd i j) (g.fbId i j) g.nowStr
            session.id attId attName])
      else (selected, attended, fbs)
    else (selected, attended, fbs)

/-- The body of the attendee loop of `generateInitialData` for index `i`:
the attendee together with the feedback records it contributed. -/
def mkAttendeeData (sessions : List Session) (g : GenOracle) (i : ℕ) :
    Attendee × List Feedback :=
  let attendee := generateAttendee (g.aRnd i) (i + 1) g.nowStr
  let sessionCount := 2 + (⌊g.aRnd i 6 * 4⌋).toNat
  let res := (List.range sessionCount).foldl
    (regStep sessions g i attendee.id attendee.name) ([], [], [])
  ({ attendee with registeredSessions := res.1, attendedSessions := res.2.1 },
    res.2.2)

/-- Code: `generateInitialData()`. -/
def generateInitialData (g : GenOracle) : SimData :=
  let sessions0 := (List.range 15).map fun i => generateSession (g.sRnd i) (i + 1) i
  let speakers := SPEAKER_NAMES.enum.map fun p => generateSpeaker (g.spRnd p.1) p.1 p.2
  let attendeeData := (List.range 847).map (mkAttendeeData sessions0 g)
  let attendees := attendeeData.map Prod.fst
  let feedback := attendeeData.flatMap Prod.snd
  let sessions := sessions0.map fun s =>
    { s with feedback := (feedback.filter fun f => f.sessionId = s.id).take 5 }
  { sessions
    speakers
    attendees
    feedback
    metrics :=
      { totalSessions := (sessions.length : ℚ)
        activeSessions := ((sessions.filter fun s => s.status = .active).length : ℚ)
        totalAttendees := (attendees.length : ℚ)
        avgEngagement := jsRoundN (jsDiv
          (sessions.foldl (fun sum s => sum + s.engagement) 0)
          (sessions.length : ℚ))
        totalFeedback := (feedback.length : ℚ)
        avgRating := jsDivN (jsRoundN (jsMulQ 10 (jsDiv
          (feedback.foldl (fun sum f => sum + f.ratings.overall) 0)
          (feedback.length : ℚ)))) 10 }
    lastUpdated := g.nowStr
    updateCount := none }

/-! ## Realtime simulator (`realtimeSimulator.js`) -/

def SIM_COMMENTS : List String :=
  ["Excellent presentation!", "Very informative session.",
   "Great insights shared.", "Well structured content.", "Engaging speaker!"]

/-- Oracle for one `performUpdate` tick: the `Math.random()` draws and date
strings each mutation pass consumes.  `attRnd i` is the
`(changeType, amount)` draw pair for the session at position `i`; `engRnd i`
its engagement-fluctuation draw; `hour`/`minute` are the wall clock read by
the status pass. -/
structure TickOracle where
  attRnd : ℕ → ℚ × ℚ
  engRnd : ℕ → ℚ
  fbChance : ℚ
  fbPick : ℚ
  fbAttendee : ℚ
  fbRnd : ℕ → ℚ
  fbIdStr : String
  hour : ℚ
  minute : ℚ
  newAttChance : ℚ
  newAttRnd : ℕ → ℚ
  nowStr : String
  notifyNow : String

/-- Per-session body of `simulateAttendanceChange` (`chT` is the
`changeType` draw, `r` the amount draw); non-active sessions are untouched
because the pass iterates over the active filter only. -/
def attendanceStep (chT r : ℚ) (s : Session) : Session :=
  if s.status = .active then
    let s1 :=
      if chT < 3/5 then
        let maxIncrease := min 5 (s.capacity - s.currentAttendance)
        let change : ℚ := (⌊r * maxIncrease⌋ : ℤ)
        { s with
          currentAttendance := min s.capacity (s.currentAttendance + change) }
      else if chT < 4/5 then
        let maxDecrease := min 3 s.currentAttendance
        let change : ℚ := (⌊r * maxDecrease⌋ : ℤ)
        { s with currentAttendance := max 0 (s.currentAttendance - change) }
      else s
    { s1 with attendanceRate := ratePct s1.currentAttendance s1.capacity }
  else s

/-- Code: `simulateAttendanceChange()`. -/
def simulateAttendanceChange (o : TickOracle) (d : SimData) : SimData :=
  { d with sessions := d.sessions.enum.map fun p =>
      attendanceStep (o.attRnd p.1).1 (o.attRnd p.1).2 p.2 }

/-- Per-session body of `simulateEngagementFluctuation`. -/
def engagementStep (r : ℚ) (s : Session) : Session :=
  if s.status = .active then
    let fluctuation := (r - 1/2) * 10
    let clamped := max 0 (min 100 (s.engagement + fluctuation))
    { s with engagement := (jsRound clamped : ℤ) }
  else s

/-- Code: `simulateEngagementFluctuation()`.  The metric recompute is the literal
`Math.round(sum / count || 1)`: by JS operator precedence the `|| 1`
applies to the quotient, not to the count. -/
def simulateEngagementFluctuation (o : TickOracle) (d : SimData) : SimData :=
  let sessions := d.sessions.enum.map fun p => engagementStep (o.engRnd p.1) p.2
  let active := sessions.filter fun s => s.status = .active
  { d with
    sessions
    metrics := { d.metrics with
      avgEngagement := jsRoundN (jsOr
        (jsDiv (active.foldl (fun sum s => sum + s.engagement) 0)
          (active.length : ℚ))
        (.num 1)) } }

/-- Code: `simulateNewFeedback()`. -/
def simulateNewFeedback (o : TickOracle) (d : SimData) : SimData :=
  if o.fbChance < 3/10 then
    let completedSessions := d.sessions.filter fun s => s.status = .completed
    if 0 < completedSessions.length then
      let session := completedSessions.getD
        (⌊o.fbPick * (completedSessions.length : ℚ)⌋).toNat defaultSession
      let attendeeIndex := (⌊o.fbAttendee * 100⌋).toNat
      let fb : Feedback :=
        { id := o.fbIdStr
          sessionId := session.id
          attendeeId := "attendee-" ++ toString attendeeIndex
          attendeeName := "User " ++ toString attendeeIndex
          ratings :=
            { content := 3 + (⌊o.fbRnd 0 * 3⌋ : ℤ)
              presentation := 3 + (⌊o.fbRnd 1 * 3⌋ : ℤ)
              relevance := 3 + (⌊o.fbRnd 2 * 3⌋ : ℤ)
              overall := 3 + (⌊o.fbRnd 3 * 3⌋ : ℤ) }
          comment := SIM_COMMENTS.getD (⌊o.fbRnd 4 * 5⌋).toNat ""
          timestamp := o.nowStr
          helpful := (⌊o.fbRnd 5 * 10⌋ : ℤ)
          verified := true }
      let feedback := d.feedback ++ [fb]
      let sessions := d.sessions.map fun s =>
        if s.id = session.id then { s with feedback := (fb :: s.feedback).take 5 }
        else s
      { d with
        feedback
        sessions
        metrics := { d.metrics with
          totalFeedback := (feedback.length : ℚ)
          avgRating := jsDivN (jsRoundN (jsMulQ 10 (jsDiv
            (feedback.foldl (fun sum f => sum + f.ratings.overall) 0)
            (feedback.length : ℚ)))) 10 } }
    else d
  else d

/-- Per-session body of `simulateSessionStatusChange` (exact-rational
idealisation of the float literal `0.3`). -/
def statusStep (hour minute : ℚ) (s : Session) : Session :=
  let sessionTime := hour + minute / 60
  if s.status = .upcoming then
    let sessionStart := s.startHour + s.startMinute / 60
    if sessionTime ≥ sessionStart then
      let att : ℚ := (⌊s.capacity * (3/10)⌋ : ℤ)
      { s with
        status := .active
        currentAttendance := att
        attendanceRate := ratePct att s.capacity }
    else s
  else if s.status = .active then
    let sessionEnd := s.startHour + 1 + s.startMinute / 60
    if sessionTime ≥ sessionEnd then { s with status := .completed } else s
  else s

/-- Code: `simulateSessionStatusChange()`. -/
def simulateSessionStatusChange (o : TickOracle) (d : SimData) : SimData :=
  let sessions := d.sessions.map (statusStep o.hour o.minute)
  { d with
    sessions
    metrics := { d.metrics with
      activeSessions :=
        ((sessions.filter fun s => s.status = .active).length : ℚ) } }

/-- Code: `simulateNewAttendee()`. -/
def simulateNewAttendee (o : TickOracle) (d : SimData) : SimData :=
  if o.newAttChance < 1/10 then
    let n := d.attendees.length + 1
    let newAttendee : Attendee :=
      { id := "attendee-" ++ toString n
        name := "New User " ++ toString n
        email := "user" ++ toString n ++ "@example.com"
        company := "TechCorp"
        role := "Developer"
        registeredSessions := []
        attendedSessions := []
        engagementScore := 50 + (⌊o.newAttRnd 0 * 50⌋ : ℤ)
        joinedAt := o.nowStr }
    let upcomingSessions := d.sessions.filter fun s => s.status = .upcoming
    let newAttendee :=
      if 0 < upcomingSessions.length then
        { newAttendee with registeredSessions :=
            [(upcomingSessions.getD
                (⌊o.newAttRnd 1 * (upcomingSessions.length : ℚ)⌋).toNat
                defaultSession).id] }
      else newAttendee
    let attendees := d.attendees ++ [newAttendee]
    { d with
      attendees
      metrics := { d.metrics with totalAttendees := (attendees.length : ℚ) } }
  else d

/-- The five mutation passes of `performUpdate`, in source order. -/
def tickData (o : TickOracle) (d : SimData) : SimData :=
  simulateNewAttendee o (simulateSessionStatusChange o (simulateNewFeedback o
    (simulateEngagementFluctuation o (simulateAttendanceChange o d))))

/-- A sequence of ticks. -/
def ticks (os : List TickOracle) (d : SimData) : SimData :=
  os.foldl (fun d o => tickData o d) d

/-! ### Subscribers, snapshots, notification -/

/-- Subscriber callbacks are identified by a numeric id (JS `Set` keyed by
function identity); the behaviour of the callback with id `c` is `env c`.
A callback either returns or throws (`Except.error`). -/
abbrev SubscriberEnv := ℕ → SimData → Except String Unit

/-- Code: `this.subscribers.add(callback)`. -/
def setAdd (subs : List ℕ) (c : ℕ) : List ℕ :=
  if c ∈ subs then subs else subs ++ [c]

/-- Code: `this.subscribers.delete(callback)`. -/
def setDelete (subs : List ℕ) (c : ℕ) : List ℕ := subs.erase c

/-- The per-subscriber `try`/`catch` in `notifySubscribers`: a thrown error
is caught and logged (`some e`), not propagated. -/
def jsTryCatch (r : Except String Unit) : Option String :=
  match r with
  | .ok _ => none
  | .error e => some e

/-- The snapshot spread `{ ...this.data, lastUpdated, updateCount }` built in
`notifySubscribers`. -/
def mkSnapshot (d : SimData) (now : String) (count : ℤ) : SimData :=
  { d with lastUpdated := now, updateCount := some count }

/-- Code: `notifySubscribers()`: invoke every subscriber in order with the
snapshot, catching each failure individually; returns the per-subscriber
log of caught errors. -/
def notifySubscribers (env : SubscriberEnv) (subs : List ℕ) (snap : SimData) :
    List (Option String) :=
  subs.foldl (fun acc c => acc ++ [jsTryCatch (env c snap)]) []

/-- The simulator's own mutable fields. -/
structure SimState where
  data : SimData
  subscribers : List ℕ
  isRunning : Bool
  updateCount : ℤ

/-- Code: `subscribe(callback)`: add to the set, then invoke the callback once,
immediately, with the live `this.data` object (no snapshot wrapper and no
`try`/`catch`).  Returns the new state, the object handed to the callback,
and the callback's outcome. -/
def subscribe (env : SubscriberEnv) (st : SimState) (c : ℕ) :
    SimState × SimData × Except String Unit :=
  ({ st with subscribers := setAdd st.subscribers c }, st.data, env c st.data)

/-- The deregistration closure returned by `subscribe`. -/
def unsubscribe (st : SimState) (c : ℕ) : SimState :=
  { st with subscribers := setDelete st.subscribers c }

/-- Code: `performUpdate()`: bump the counter, run the five passes, notify.
Returns the new state, the snapshot that was delivered, and the
notification log. -/
def performUpdate (env : SubscriberEnv) (o : TickOracle) (st : SimState) :
    SimState × SimData × List (Option String) :=
  let count := st.updateCount + 1
  let data := tickData o st.data
  let snap := mkSnapshot data o.notifyNow count
  ({ st with data, updateCount := count }, snap,
    notifySubscribers env st.subscribers snap)

/-- Code: `reset()`: stop, regenerate the dataset, zero the counter, notify. -/
def resetSim (env : SubscriberEnv) (g : GenOracle) (now : String)
    (st : SimState) : SimState × SimData × List (Option String) :=
  let data := generateInitialData g
  let snap := mkSnapshot data now 0
  ({ st with isRunning := false, data, updateCount := 0 }, snap,
    notifySubscribers env st.subscribers snap)

/-! ## Caches (`sessionAnalytics.js` / `analyticsService.js`) -/

/-- An entry of an analytics cache: value plus the `Date.now()` timestamp at
which it was stored (milliseconds, modelled as ℚ). -/
structure CacheEntry (α : Type) where
  value : α
  timestamp : ℚ
deriving DecidableEq, Repr

/-- A JS `Map` keyed by strings, in insertion order. -/
abbrev Cache (α : Type) : Type := List (String × CacheEntry α)

/-- Code: `Map.prototype.get`. -/
def cacheGet (c : Cache α) (k : String) : Option (CacheEntry α) :=
  match List.find? (fun e => e.1 = k) c with
  | some e => some e.2
  | none => none

/-- Code: `Map.prototype.set` (updates in place, keeps insertion order). -/
def cacheSet (c : Cache α) (k : String) (v : CacheEntry α) : Cache α :=
  if (List.find? (fun e => e.1 = k) c).isSome then
    c.map fun e => if e.1 = k then (k, v) else e
  else c ++ [(k, v)]

/-- Code: `Map.prototype.delete`. -/
def cacheDelete (c : Cache α) (k : String) : Cache α :=
  List.filter (fun e => ¬ e.1 = k) c

/-- Code: `SessionAnalytics.clearCache(key = null)`. -/
def clearCache (c : Cache α) (key : Option String) : Cache α :=
  match key with
  | some k => cacheDelete c k
  | none => []

/-- Code: `SessionAnalytics.getCachedOrCompute(key, computeFn, data)` with
`cacheTimeout = 5000`.  The extra `Bool` result is instrumentation: whether
`computeFn` was run (the recomputation spy of the testable properties). -/
def getCachedOrCompute (c : Cache α) (now : ℚ) (key : String)
    (computeFn : δ → α) (data : δ) : α × Cache α × Bool :=
  match cacheGet c key with
  | some cached =>
    if now - cached.timestamp < 5000 then (cached.value, c, false)
    else
      let value := computeFn data
      (value, cacheSet c key ⟨value, now⟩, true)
  | none =>
    let value := computeFn data
    (value, cacheSet c key ⟨value, now⟩, true)

/-! ## Session analytics service (`sessionAnalytics.js`) -/

/-- Result of `calculateSessionStats`. -/
structure SessionStats where
  total : ℕ
  active : ℕ
  upcoming : ℕ
  completed : ℕ
  averageAttendance : ℚ
  averageEngagement : ℚ
  totalCapacity : ℚ
  totalAttendees : ℚ
deriving DecidableEq, Repr

/-- The accumulator of the `reduce` in `calculateSessionStats`
(`totalEngagement` is deleted from the result afterwards). -/
structure StatsAcc where
  total : ℕ
  active : ℕ
  upcoming : ℕ
  completed : ℕ
  totalCapacity : ℚ
  totalAttendees : ℚ
  totalEngagement : ℚ
deriving DecidableEq, Repr

/-- One step of that `reduce` (`acc[session.status]++`). -/
def statsStep (acc : StatsAcc) (s : Session) : StatsAcc :=
  let acc := { acc with total := acc.total + 1 }
  let acc :=
    match s.status with
    | .active => { acc with active := acc.active + 1 }
    | .upcoming => { acc with upcoming := acc.upcoming + 1 }
    | .completed => { acc with completed := acc.completed + 1 }
  { acc with
    totalCapacity := acc.totalCapacity + s.capacity
    totalAttendees := acc.totalAttendees + s.currentAttendance
    totalEngagement := acc.totalEngagement + s.engagement }

/-- The compute function of `calculateSessionStats`. -/
def sessionStatsFn (data : List Session) : SessionStats :=
  if data.length = 0 then
    { total := 0, active := 0, upcoming := 0, completed := 0
      averageAttendance := 0, averageEngagement := 0
      totalCapacity := 0, totalAttendees := 0 }
  else
    let stats := data.foldl statsStep ⟨0, 0, 0, 0, 0, 0, 0⟩
    { total := stats.total
      active := stats.active
      upcoming := stats.upcoming
      completed := stats.completed
      averageAttendance :=
        if 0 < stats.total then
          ((jsRound (stats.totalAttendees / (stats.total : ℚ)) : ℤ) : ℚ)
        else 0
      averageEngagement :=
        if 0 < stats.total then
          ((jsRound (stats.totalEngagement / (stats.total : ℚ)) : ℤ) : ℚ)
        else 0
      totalCapacity := stats.totalCapacity
      totalAttendees := stats.totalAttendees }

/-- The comparator key of `getTopSessions` (the `switch` on `metric`;
`session.averageRating || 0` reads `0` for an absent rating). -/
def metricKey (metric : String) (s : Session) : ℚ :=
  if metric = "engagement" then s.engagement
  else if metric = "capacity" then s.capacity
  else if metric = "rating" then s.averageRating.getD 0
  else s.currentAttendance

/-- An element of the `getTopSessions` result: the spread session with
`rank` and `percentile` attached. -/
structure RankedSession where
  session : Session
  rank : ℤ
  percentile : ℤ
deriving DecidableEq, Repr

/-- The compute function of `getTopSessions`. -/
def topSessionsFn (metric : String) (limit : ℕ) (data : List Session) :
    List RankedSession :=
  if data.length = 0 then []
  else
    let sorted := jsSortDescBy (metricKey metric) data
    (sorted.take limit).map fun session =>
      { session
        rank := jsIndexOf sorted session + 1
        percentile := jsRound
          ((((data.length : ℚ) - (jsIndexOf sorted session : ℤ)) /
            (data.length : ℚ)) * 100) }

/-- Problem categories flagged by `getSessionsNeedingAttention`. -/
inductive ProblemType where
  | low_attendance : ProblemType
  | low_engagement : ProblemType
  | low_rating : ProblemType
deriving DecidableEq, Repr

/-- Problem severities. -/
inductive Severity where
  | high : Severity
  | medium : Severity
  | low : Severity
deriving DecidableEq, Repr

/-- The `severityOrder` lookup table used by the final sort. -/
def severityOrder : Severity → ℚ
  | .high => 0
  | .medium => 1
  | .low => 2

/-- One entry of a session's `problems` array. -/
structure Problem where
  type : ProblemType
  severity : Severity
  message : String
deriving DecidableEq, Repr

/-- One entry of the `getSessionsNeedingAttention` result. -/
structure Issue where
  session : Session
  problems : List Problem
  overallSeverity : Severity
  recommendedActions : List String
deriving DecidableEq, Repr

/-- The `session.averageRating && session.averageRating < 3` test: an
absent (`undefined`) or zero rating is falsy and is not flagged. -/
def ratingFlag (s : Session) : Bool :=
  match s.averageRating with
  | some r => r ≠ 0 ∧ r < 3
  | none => false

/-- The per-session `problems` list built by `getSessionsNeedingAttention`. -/
def sessionProblems (s : Session) : List Problem :=
  (if jsLt s.attendanceRate 30 then
    [{ type := .low_attendance, severity := .high
       message := "Very low attendance" }]
   else if jsLt s.attendanceRate 50 then
    [{ type := .low_attendance, severity := .medium
       message := "Below average attendance" }]
   else []) ++
  (if s.engagement < 40 then
    [{ type := .low_engagement, severity := .high
       message := "Poor engagement level" }]
   else if s.engagement < 60 then
    [{ type := .low_engagement, severity := .medium
       message := "Moderate engagement" }]
   else []) ++
  (if ratingFlag s then
    [{ type := .low_rating, severity := .high
       message := "Low audience rating" }]
   else [])

/-- Code: `getRecommendedActions(problems)`. -/
def getRecommendedActions (problems : List Problem) : List String :=
  (if problems.any fun p => p.type = .low_attendance then
    ["Send reminder notifications to registered attendees",
     "Consider room change or schedule adjustment"]
   else []) ++
  (if problems.any fun p => p.type = .low_engagement then
    ["Encourage speaker to increase interactivity",
     "Review session format and content"]
   else []) ++
  (if problems.any fun p => p.type = .low_rating then
    ["Collect detailed feedback from attendees",
     "Schedule follow-up with speaker"]
   else [])

/-- The issue built for a session whose `problems` list is non-empty. -/
def mkIssue (s : Session) (problems : List Problem) : Issue :=
  { session := s
    problems
    overallSeverity :=
      if problems.any fun p => p.severity = .high then .high else .medium
    recommendedActions := getRecommendedActions problems }

/-- The compute function of `getSessionsNeedingAttention`: collect issues
(the `forEach`/`push` loop, as a `filterMap`), then the stable sort by
`severityOrder`. -/
def needingAttentionFn (data : List Session) : List Issue :=
  let issues := data.filterMap fun session =>
    let problems := sessionProblems session
    if 0 < problems.length then some (mkIssue session problems) else none
  jsSortAscBy (fun i => severityOrder i.overallSeverity) issues

/-- The value type of the (heterogeneous) `SessionAnalytics` cache map,
restricted to the methods embedded here. -/
inductive SAValue where
  | stats : SessionStats → SAValue
  | ranked : List RankedSession → SAValue
  | issues : List Issue → SAValue
deriving DecidableEq, Repr

/-- Code: `calculateSessionStats(sessions)`: note the cache key is the constant
string; the `sessions` argument is not part of the key. -/
def calculateSessionStats (c : Cache SAValue) (now : ℚ)
    (sessions : List Session) : SAValue × Cache SAValue × Bool :=
  getCachedOrCompute c now "sessionStats"
    (fun data => .stats (sessionStatsFn data)) sessions

/-- Code: `getTopSessions(sessions, metric = 'attendance', limit = 5)`: the key
carries `metric` and `limit` but not the `sessions` argument. -/
def getTopSessions (c : Cache SAValue) (now : ℚ) (sessions : List Session)
    (metric : String) (limit : ℕ) : SAValue × Cache SAValue × Bool :=
  getCachedOrCompute c now ("topSessions_" ++ metric ++ "_" ++ toString limit)
    (fun data => .ranked (topSessionsFn metric limit data)) sessions

/-- Code: `getSessionsNeedingAttention(sessions)` (constant cache key). -/
def getSessionsNeedingAttention (c : Cache SAValue) (now : ℚ)
    (sessions : List Session) : SAValue × Cache SAValue × Bool :=
  getCachedOrCompute c now "sessionsNeedingAttention"
    (fun data => .issues (needingAttentionFn data)) sessions

/-! ## Aggregate analytics service (`analyticsService.js`) and the
`dataTransformers` it calls -/

/-- Code: `AnalyticsService.getCacheKey(method, ...args)` =
`` `${method}-${JSON.stringify(args)}` `` for numeric arguments. -/
def getCacheKey (method : String) (args : List ℕ) : String :=
  method ++ "-" ++ "[" ++ String.intercalate "," (args.map toString) ++ "]"

/-- Code: `AnalyticsService.getFromCache` with `cacheTimeout = 10000`; an expired
or missing entry is deleted and `none` returned. -/
def getFromCache (c : Cache α) (now : ℚ) (key : String) :
    Option α × Cache α :=
  match cacheGet c key with
  | some cached =>
    if now - cached.timestamp < 10000 then (some cached.value, c)
    else (none, cacheDelete c key)
  | none => (none, cacheDelete c key)

/-- Result of `aggregateMetrics` in `dataTransformers`. -/
structure AggMetrics where
  totalSessions : ℕ
  activeSessions : ℕ
  completedSessions : ℕ
  upcomingSessions : ℕ
  totalAttendees : ℕ
  totalCapacity : ℚ
  totalAttendance : ℚ
  overallAttendanceRate : JSNum
  avgEngagement : ℚ
  totalFeedback : ℕ
  avgRating : ℚ
  satisfactionRate : JSNum
deriving DecidableEq, Repr

/-- Code: `aggregateMetrics(sessions, attendees, feedback)`: `avgEngagement` and
`avgRating` are guarded against empty inputs, `overallAttendanceRate` is
not, and `satisfactionRate` is guarded only by a trailing `|| 0`. -/
def aggregateMetrics (sessions : List Session) (attendees : List Attendee)
    (feedback : List Feedback) : AggMetrics :=
  let activeSessions := sessions.filter fun s => s.status = .active
  let completedSessions := sessions.filter fun s => s.status = .completed
  let totalCapacity := sessions.foldl (fun sum s => sum + s.capacity) 0
  let totalAttendance :=
    sessions.foldl (fun sum s => sum + s.currentAttendance) 0
  let avgEngagement : ℚ :=
    if 0 < activeSessions.length then
      ((jsRound ((activeSessions.foldl (fun sum s => sum + s.engagement) 0) /
        (activeSessions.length : ℚ)) : ℤ) : ℚ)
    else 0
  let avgRating : ℚ :=
    if 0 < feedback.length then
      ((jsRound (((feedback.foldl (fun sum f => sum + f.ratings.overall) 0) /
        (feedback.length : ℚ)) * 10) : ℤ) : ℚ) / 10
    else 0
  { totalSessions := sessions.length
    activeSessions := activeSessions.length
    completedSessions := completedSessions.length
    upcomingSessions := (sessions.filter fun s => s.status = .upcoming).length
    totalAttendees := attendees.length
    totalCapacity
    totalAttendance
    overallAttendanceRate := jsRoundN (jsMulQ 100 (jsDiv totalAttendance totalCapacity))
    avgEngagement
    totalFeedback := feedback.length
    avgRating
    satisfactionRate := jsOr
      (jsRoundN (jsMulQ 100 (jsDiv
        (((feedback.filter fun f => f.ratings.overall ≥ 4).length : ℕ) : ℚ)
        (feedback.length : ℚ))))
      (.num 0) }

/-- Code: `AnalyticsService.getOverallMetrics(sessions, attendees, feedback)`:
the cache key serialises only the three array lengths. -/
def getOverallMetrics (c : Cache AggMetrics) (now : ℚ)
    (sessions : List Session) (attendees : List Attendee)
    (feedback : List Feedback) : AggMetrics × Cache AggMetrics × Bool :=
  let key := getCacheKey "overallMetrics"
    [sessions.length, attendees.length, feedback.length]
  match getFromCache c now key with
  | (some cached, c1) => (cached, c1, false)
  | (none, c1) =>
    let metrics := aggregateMetrics sessions attendees feedback
    (metrics, cacheSet c1 key ⟨metrics, now⟩, true)

/-- Result of `calculateROI`. -/
structure ROIResult where
  score : JSNum
  totalAttendance : ℚ
  avgSatisfaction : ℚ
  engagementScore : JSNum
deriving DecidableEq, Repr

/-- Code: `calculateROI(sessions, feedback)`: `avgSatisfaction` is guarded
against empty feedback; the `engagementScore` division by
`sessions.length` is not guarded. -/
def calculateROI (sessions : List Session) (feedback : List Feedback) :
    ROIResult :=
  let totalAttendance :=
    sessions.foldl (fun sum s => sum + s.currentAttendance) 0
  let avgSatisfaction : ℚ :=
    if 0 < feedback.length then
      (feedback.foldl (fun sum f => sum + f.ratings.overall) 0) /
        (feedback.length : ℚ)
    else 0
  let engagementScore :=
    jsDiv (sessions.foldl (fun sum s => sum + s.engagement) 0)
      (sessions.length : ℚ)
  let roi := jsDivN (jsMulQ (totalAttendance * avgSatisfaction)
    engagementScore) 100
  { score := jsRoundN roi
    totalAttendance
    avgSatisfaction := ((jsRound (avgSatisfaction * 10) : ℤ) : ℚ) / 10
    engagementScore := jsRoundN engagementScore }

/-! ## Concrete fixtures for witnesses and counterexamples -/

/-- Out-of-range default attendee (JS `undefined`). -/
def defaultAttendee : Attendee :=
  { id := "", name := "", email := "", company := "", role := ""
    registeredSessions := [], attendedSessions := [], engagementScore := 0
    joinedAt := "" }

/-- Generator oracle whose every draw is `0`. -/
def g0 : GenOracle :=
  { sRnd := fun _ _ => 0, spRnd := fun _ _ => 0, aRnd := fun _ _ => 0
    fbRnd := fun _ _ _ => 0, fbId := fun _ _ => "fb", nowStr := "now" }

/-- A deterministic tick oracle (no feedback, no new attendee, clock at 0:00). -/
def o0 : TickOracle :=
  { attRnd := fun _ => (0, 0), engRnd := fun _ => 0, fbChance := 1, fbPick := 0
    fbAttendee := 0, fbRnd := fun _ => 0, fbIdStr := "f", hour := 0, minute := 0
    newAttChance := 1, newAttRnd := fun _ => 0, nowStr := "t", notifyNow := "t2" }

/-- A metrics record with all counters zeroed. -/
def m0 : Metrics :=
  { totalSessions := 1, activeSessions := 0, totalAttendees := 0
    avgEngagement := .num 0, totalFeedback := 0, avgRating := .num 0 }

/-- A dataset with one upcoming session (so zero active sessions) that has
not reached its start time yet. -/
def d0 : SimData :=
  { sessions := [{ defaultSession with status := .upcoming, startHour := 5 }]
    speakers := [], attendees := [], feedback := []
    metrics := m0
    lastUpdated := "x", updateCount := none }

/-- Subscriber environment in which every callback returns normally. -/
def env0 : SubscriberEnv := fun _ _ => .ok ()

/-- A concrete simulator state over `d0` with no subscribers. -/
def st0 : SimState :=
  { data := d0, subscribers := [], isRunning := false, updateCount := 0 }

/-- The scenario session of the spec's end-to-end test 6:
`attendanceRate = 20, engagement = 35, rating = 2`. -/
def testSession : Session :=
  { defaultSession with
    id := "s1", attendanceRate := .num 20, engagement := 35
    averageRating := some 2 }

/-- A session whose rating is `0` (below 3) but otherwise healthy. -/
def zeroRatingSession : Session :=
  { defaultSession with
    id := "s2", attendanceRate := .num 80, engagement := 80
    averageRating := some 0 }

/-- A one-element session list of total capacity 1. -/
def sessListA : List Session := [{ defaultSession with capacity := 1 }]

/-- A one-element session list of total capacity 2. -/
def sessListB : List Session := [{ defaultSession with capacity := 2 }]

/-! ## C1: division-by-zero guards -/

/-- Claim C1 (refuting evaluation).  The spec claims every average/ratio that
could divide by zero is guarded to produce `0`.  On the code: after an
engagement-drift pass with zero active sessions the recomputed
`metrics.avgEngagement` is `1`, not `0` (the `|| 1` binds to the quotient,
turning `NaN` into `1`); `aggregateMetrics` on sessions of total capacity
`0` yields `overallAttendanceRate = NaN` (unguarded); and `calculateROI` on
an empty sessions array yields `NaN` for both `engagementScore` and
`score` (the division by `sessions.length` is unguarded). -/
theorem divisionGuard_failures_eval :
    ((simulateEngagementFluctuation o0 d0).metrics.avgEngagement = .num 1 ∧
      (simulateEngagementFluctuation o0 d0).metrics.avgEngagement ≠ .num 0) ∧
    (aggregateMetrics [{ defaultSession with capacity := 0 }] []
      []).overallAttendanceRate = .nan ∧
    (calculateROI [] []).engagementScore = .nan ∧
    (calculateROI [] []).score = .nan := by
  have h1 : (simulateEngagementFluctuation o0 d0).metrics.avgEngagement
      = jsRoundN (jsOr (jsDiv 0 0) (.num 1)) := by
    simp [simulateEngagementFluctuation, d0, o0, m0, defaultSession,
      List.enum, List.enumFrom, engagementStep]
  have h2 : (aggregateMetrics [{ defaultSession with capacity := 0 }] []
      []).overallAttendanceRate = jsRoundN (jsMulQ 100 (jsDiv 0 0)) := by
    simp [aggregateMetrics, defaultSession]
  have h3 : (calculateROI [] []).engagementScore = jsRoundN (jsDiv 0 0) := by
    simp [calculateROI]
  have h4 : (calculateROI [] []).score
      = jsRoundN (jsDivN (jsMulQ (0 * 0) (jsDiv 0 0)) 100) := by
    simp [calculateROI]
  rw [h1, h2, h3, h4]
  norm_num [jsDiv, jsDivN, jsMulQ, jsOr, jsTruthy, jsRoundN, jsRound]

/-! ## C9: per-subscriber failure isolation -/

/-- Lemma: `notifySubscribers` delivers to each subscriber independently: the
sequential fold with per-subscriber `try`/`catch` equals the pointwise map
of guarded invocations. -/
theorem notifySubscribers_eq_map (env : SubscriberEnv) (subs : List ℕ)
    (snap : SimData) :
    notifySubscribers env subs snap =
      subs.map fun c => jsTryCatch (env c snap) := by
  unfold notifySubscribers
  suffices h : ∀ acc : List (Option String),
      subs.foldl (fun acc c => acc ++ [jsTryCatch (env c snap)]) acc =
        acc ++ subs.map fun c => jsTryCatch (env c snap) by
    simpa using h []
  induction subs with
  | nil => simp
  | cons c rest ih => intro acc; simp [ih]

/-- Claim C9.**  During per-tick notification a throwing subscriber is caught
individually: every subscriber receives exactly one guarded invocation
with that tick's snapshot, independent of every other callback's outcome;
the simulator's own state after the tick does not depend on the
subscribers' behaviour at all (so the tick completes and no state is
corrupted); and the notification log has one slot per subscriber. -/
theorem notify_isolates_subscriber_failures :
    (∀ (env : SubscriberEnv) (o : TickOracle) (st : SimState),
      (performUpdate env o st).2.2 =
        st.subscribers.map fun c => jsTryCatch (env c
          (mkSnapshot (tickData o st.data) o.notifyNow (st.updateCount + 1)))) ∧
    (∀ (env envB : SubscriberEnv) (o : TickOracle) (st : SimState),
      (performUpdate env o st).1 = (performUpdate envB o st).1) ∧
    (∀ (env : SubscriberEnv) (o : TickOracle) (st : SimState),
      (performUpdate env o st).2.2.length = st.subscribers.length) := by
  refine ⟨?_, ?_, ?_⟩
  · intro env o st
    simp [performUpdate, notifySubscribers_eq_map]
  · intro env envB o st
    rfl
  · intro env o st
    simp [performUpdate, notifySubscribers_eq_map]

/-! ## C10: subscriber set semantics -/

/-- Claim C10.**  Subscribers live in a `Set` keyed by function identity:
adding the same callback twice registers it once (its multiplicity in the
notification list is `1`, and double subscription notifies identically to
a single one); the unsubscribe operation is idempotent, removes that
callback, and leaves every other subscriber registered. -/
theorem subscribers_set_semantics (subs : List ℕ) (c : ℕ)
    (hnd : subs.Nodup) :
    (setAdd (setAdd subs c) c = setAdd subs c) ∧
    ((setAdd subs c).count c = 1) ∧
    (setAdd subs c).Nodup ∧
    (∀ (env : SubscriberEnv) (snap : SimData),
      notifySubscribers env (setAdd (setAdd subs c) c) snap =
        notifySubscribers env (setAdd subs c) snap) ∧
    (setDelete (setDelete subs c) c = setDelete subs c) ∧
    (c ∉ setDelete subs c) ∧
    (∀ d, d ≠ c → (d ∈ setDelete subs c ↔ d ∈ subs)) := by
  have hmemAdd : c ∈ setAdd subs c := by
    unfold setAdd
    split
    · assumption
    · simp
  have hAddNodup : (setAdd subs c).Nodup := by
    unfold setAdd
    split
    · exact hnd
    · rename_i hni
      simp [List.nodup_append, hnd, hni]
  have hDouble : setAdd (setAdd subs c) c = setAdd subs c := by
    show (if c ∈ setAdd subs c then setAdd subs c else setAdd subs c ++ [c])
      = setAdd subs c
    rw [if_pos hmemAdd]
  refine ⟨hDouble, ?_, hAddNodup, ?_, ?_, ?_, ?_⟩
  · exact List.count_eq_one_of_mem hAddNodup hmemAdd
  · intro env snap
    rw [hDouble]
  · unfold setDelete
    rw [List.erase_of_not_mem (hnd.not_mem_erase)]
  · exact hnd.not_mem_erase
  · intro d hd
    unfold setDelete
    rw [hnd.mem_erase_iff]
    simp [hd]

/-- Witness for C10 at a concrete subscriber list. -/
theorem subscribers_set_semantics_witness :
    ([3, 8] : List ℕ).Nodup ∧
    (setAdd (setAdd [3, 8] 5) 5 = setAdd [3, 8] 5 ∧
      (setAdd [3, 8] 5).count 5 = 1) := by
  refine ⟨by decide, ?_⟩
  have h := subscribers_set_semantics [3, 8] 5 (by decide)
  exact ⟨h.1, h.2.1⟩

/-! ## C4: what subscribers are handed -/

theorem simulateAttendanceChange_updateCount (o : TickOracle) (d : SimData) :
    (simulateAttendanceChange o d).updateCount = d.updateCount := rfl

theorem simulateEngagementFluctuation_updateCount (o : TickOracle)
    (d : SimData) :
    (simulateEngagementFluctuation o d).updateCount = d.updateCount := rfl

theorem simulateNewFeedback_updateCount (o : TickOracle) (d : SimData) :
    (simulateNewFeedback o d).updateCount = d.updateCount := by
  simp only [simulateNewFeedback]
  split_ifs <;> rfl

theorem simulateSessionStatusChange_updateCount (o : TickOracle)
    (d : SimData) :
    (simulateSessionStatusChange o d).updateCount = d.updateCount := rfl

theorem simulateNewAttendee_updateCount (o : TickOracle) (d : SimData) :
    (simulateNewAttendee o d).updateCount = d.updateCount := by
  simp only [simulateNewAttendee]
  split_ifs <;> rfl

/-- No mutation pass ever writes the `updateCount` property onto the live
data object. -/
theorem tickData_updateCount (o : TickOracle) (d : SimData) :
    (tickData o d).updateCount = d.updateCount := by
  unfold tickData
  rw [simulateNewAttendee_updateCount, simulateSessionStatusChange_updateCount,
    simulateNewFeedback_updateCount, simulateEngagementFluctuation_updateCount,
    simulateAttendanceChange_updateCount]

/-- Claim C4 (counterexample).  The immediate invocation performed inside
`subscribe` hands the callback the simulator's live internal data object
itself — not a shallow copy — and that object carries no `updateCount`
property, refuting the claim that every delivered object is a copy with
the full snapshot shape. -/
theorem subscribe_delivers_live_data :
    (subscribe env0 st0 7).2.1 = st0.data ∧
    (subscribe env0 st0 7).2.1.updateCount = none := ⟨rfl, rfl⟩

/-- Claim C4 (amended).  Objects delivered during per-tick notification are
snapshot copies `{ ...data, lastUpdated, updateCount }` carrying the
integer `updateCount`, and differ from the live data object (which never
has an `updateCount` property: the generator does not set one and no pass
adds one).  The immediate invocation inside `subscribe`, however, receives
the live data object itself. -/
theorem snapshot_shape_amended :
    (∀ (env : SubscriberEnv) (o : TickOracle) (st : SimState),
      st.data.updateCount = none →
      (performUpdate env o st).2.1
          = mkSnapshot (performUpdate env o st).1.data o.notifyNow
              (st.updateCount + 1) ∧
        (performUpdate env o st).2.1.updateCount = some (st.updateCount + 1) ∧
        (performUpdate env o st).2.1 ≠ (performUpdate env o st).1.data ∧
        (performUpdate env o st).1.data.updateCount = none) ∧
    (∀ (env : SubscriberEnv) (st : SimState) (c : ℕ),
      (subscribe env st c).2.1 = st.data) ∧
    (∀ g : GenOracle, (generateInitialData g).updateCount = none) := by
  refine ⟨?_, fun env st c => rfl, fun g => rfl⟩
  intro env o st h
  have hdata : (performUpdate env o st).1.data.updateCount = none := by
    show (tickData o st.data).updateCount = none
    rw [tickData_updateCount]
    exact h
  refine ⟨rfl, rfl, ?_, hdata⟩
  intro heq
  have : (performUpdate env o st).2.1.updateCount
      = (performUpdate env o st).1.data.updateCount := by rw [heq]
  rw [hdata] at this
  exact Option.noConfusion this

/-- Witness for the amended C4 at the concrete fixture state. -/
theorem snapshot_shape_amended_witness :
    st0.data.updateCount = none ∧
    (performUpdate env0 o0 st0).2.1.updateCount = some (st0.updateCount + 1) := by
  have h := snapshot_shape_amended.1 env0 o0 st0 rfl
  exact ⟨rfl, h.2.1⟩

/-! ## C3: cache keying -/

/-- Lemma: `Map.get` after `Map.set` of the same key finds the new entry. -/
theorem cacheGet_cacheSet_self (c : Cache α) (k : String) (v : CacheEntry α) :
    cacheGet (cacheSet c k v) k = some v := by
  unfold cacheSet
  split
  · rename_i hsome
    induction c with
    | nil => simp at hsome
    | cons e rest ih =>
      by_cases he : e.1 = k
      · simp [cacheGet, List.find?_cons, he]
      · simp only [List.map_cons, if_neg he]
        have hrest : (List.find? (fun e => e.1 = k) rest).isSome := by
          rw [List.find?_cons] at hsome
          simpa [he] using hsome
        simpa [cacheGet, List.find?_cons, he] using ih hrest
  · rename_i hnone
    have hnone' : List.find? (fun e => e.1 = k) c = none := by
      cases hfind : List.find? (fun e => e.1 = k) c with
      | none => rfl
      | some e => rw [hfind] at hnone; simp at hnone
    unfold cacheGet
    rw [List.find?_append, hnone']
    simp

/-- A fresh computation followed by a repeat of the identical key within
the 5-second TTL is served from the cache without recomputation. -/
theorem getCachedOrCompute_hit {α δ : Type} (c : Cache α) (now nowB : ℚ)
    (key : String) (f : δ → α) (data : δ)
    (hfresh : cacheGet c key = none) (h5 : nowB - now < 5000) :
    (getCachedOrCompute (getCachedOrCompute c now key f data).2.1 nowB key f
        data).1 = (getCachedOrCompute c now key f data).1 ∧
    (getCachedOrCompute (getCachedOrCompute c now key f data).2.1 nowB key f
        data).2.2 = false := by
  have h1 : getCachedOrCompute c now key f data
      = (f data, cacheSet c key ⟨f data, now⟩, true) := by
    unfold getCachedOrCompute
    rw [hfresh]
  rw [h1]
  unfold getCachedOrCompute
  rw [cacheGet_cacheSet_self]
  simp [h5]

/-- Claim C3 (counterexample).  `calculateSessionStats` keys its cache by the
constant string `sessionStats`: a call with a *different* sessions array
within the TTL is served the value computed for the previous array. -/
theorem cache_served_other_args :
    (calculateSessionStats (calculateSessionStats [] 0 sessListA).2.1 1
        sessListB).1 = .stats (sessionStatsFn sessListA) ∧
    (calculateSessionStats (calculateSessionStats [] 0 sessListA).2.1 1
        sessListB).2.2 = false ∧
    sessionStatsFn sessListA ≠ sessionStatsFn sessListB := by
  have hc1 : (calculateSessionStats [] 0 sessListA).2.1
      = [("sessionStats",
          (⟨.stats (sessionStatsFn sessListA), 0⟩ : CacheEntry SAValue))] := rfl
  have hget : cacheGet [("sessionStats",
      (⟨.stats (sessionStatsFn sessListA), 0⟩ : CacheEntry SAValue))]
      "sessionStats" = some ⟨.stats (sessionStatsFn sessListA), 0⟩ := rfl
  constructor
  · show (getCachedOrCompute _ _ _ _ _).1 = _
    rw [hc1]
    unfold getCachedOrCompute
    rw [hget]
    norm_num
  constructor
  · show (getCachedOrCompute _ _ _ _ _).2.2 = false
    rw [hc1]
    unfold getCachedOrCompute
    rw [hget]
    norm_num
  · intro h
    have : (sessionStatsFn sessListA).totalCapacity
        = (sessionStatsFn sessListB).totalCapacity := by rw [h]
    have ha : (sessionStatsFn sessListA).totalCapacity = 1 := by
      simp [sessionStatsFn, sessListA, statsStep, defaultSession]
    have hb : (sessionStatsFn sessListB).totalCapacity = 2 := by
      simp [sessionStatsFn, sessListB, statsStep, defaultSession]
    rw [ha, hb] at this
    norm_num at this

/-- Claim C3 (amended).  Each cached computation is keyed by the method name
plus the scalar parameters the code serialises (metric and limit for
`getTopSessions`; the argument array lengths for the aggregate service) —
not the full argument contents.  Within the TTL (5 s for Session
Analytics, 10 s for Aggregate Analytics) a repeated call with the same key
is served the previously computed value without recomputation, and a
`getTopSessions` call with a different metric or limit uses a different
key and recomputes. -/
theorem cache_key_contract_amended :
    (∀ (c : Cache SAValue) (now nowB : ℚ) (sessions : List Session),
      cacheGet c "sessionStats" = none → nowB - now < 5000 →
      (calculateSessionStats (calculateSessionStats c now sessions).2.1 nowB
          sessions).1 = (calculateSessionStats c now sessions).1 ∧
      (calculateSessionStats (calculateSessionStats c now sessions).2.1 nowB
          sessions).2.2 = false) ∧
    (∀ (c : Cache SAValue) (now nowB : ℚ) (sessions : List Session)
        (metric : String) (limit : ℕ),
      cacheGet c ("topSessions_" ++ metric ++ "_" ++ toString limit) = none →
      nowB - now < 5000 →
      (getTopSessions (getTopSessions c now sessions metric limit).2.1 nowB
          sessions metric limit).1
          = (getTopSessions c now sessions metric limit).1 ∧
      (getTopSessions (getTopSessions c now sessions metric limit).2.1 nowB
          sessions metric limit).2.2 = false) ∧
    (∀ (c : Cache AggMetrics) (now nowB : ℚ) (sessions : List Session)
        (attendees : List Attendee) (feedback : List Feedback),
      cacheGet c (getCacheKey "overallMetrics"
        [sessions.length, attendees.length, feedback.length]) = none →
      nowB - now < 10000 →
      (getOverallMetrics (getOverallMetrics c now sessions attendees
          feedback).2.1 nowB sessions attendees feedback).1
          = (getOverallMetrics c now sessions attendees feedback).1 ∧
      (getOverallMetrics (getOverallMetrics c now sessions attendees
          feedback).2.1 nowB sessions attendees feedback).2.2 = false) ∧
    ((getTopSessions (getTopSessions [] 0 sessListA "attendance" 5).2.1 1
        sessListA "engagement" 5).2.2 = true) := by
  refine ⟨?_, ?_, ?_, ?_⟩
  · intro c now nowB sessions hfresh h5
    exact getCachedOrCompute_hit c now nowB _ _ sessions hfresh h5
  · intro c now nowB sessions metric limit hfresh h5
    exact getCachedOrCompute_hit c now nowB _ _ sessions hfresh h5
  · intro c now nowB sessions attendees feedback hfresh h10
    have h1 : getOverallMetrics c now sessions attendees feedback
        = (aggregateMetrics sessions attendees feedback,
            cacheSet (cacheDelete c (getCacheKey "overallMetrics"
              [sessions.length, attendees.length, feedback.length]))
              (getCacheKey "overallMetrics"
                [sessions.length, attendees.length, feedback.length])
              ⟨aggregateMetrics sessions attendees feedback, now⟩, true) := by
      simp only [getOverallMetrics, getFromCache]
      rw [hfresh]
    rw [h1]
    simp only [getOverallMetrics, getFromCache]
    rw [cacheGet_cacheSet_self]
    simp [h10]
  · rfl

/-- Witness for the amended C3 at a fresh cache and concrete times. -/
theorem cache_key_contract_amended_witness :
    (cacheGet ([] : Cache SAValue) "sessionStats" = none ∧ (1 : ℚ) - 0 < 5000) ∧
    (calculateSessionStats (calculateSessionStats [] 0 sessListA).2.1 1
        sessListA).2.2 = false := by
  refine ⟨⟨rfl, by norm_num⟩, ?_⟩
  exact (cache_key_contract_amended.1 [] 0 1 sessListA rfl (by norm_num)).2

/-! ## C2: sessions needing attention -/

/-- JS `x < a` implies `x < b` for `a ≤ b` (also through `-Infinity`). -/
theorem jsLt_mono {x : JSNum} {a b : ℚ} (h : jsLt x a = true) (hab : a ≤ b) :
    jsLt x b = true := by
  cases x <;> simp [jsLt] at h ⊢
  linarith

/-- The combined flagging condition of `getSessionsNeedingAttention`. -/
def attentionFlag (s : Session) : Bool :=
  jsLt s.attendanceRate 50 || decide (s.engagement < 60) || ratingFlag s

/-- A session gets a non-empty `problems` list exactly when one of the
three flagging conditions holds. -/
theorem sessionProblems_pos_iff (s : Session) :
    0 < (sessionProblems s).length ↔ attentionFlag s = true := by
  unfold sessionProblems attentionFlag
  split_ifs <;> simp_all <;>
    first
      | exact Or.inl (jsLt_mono (by assumption) (by norm_num))
      | linarith

/-- Every problem the code records is tagged `high` or `medium`. -/
theorem sessionProblems_severity (s : Session) :
    ∀ p ∈ sessionProblems s, p.severity = .high ∨ p.severity = .medium := by
  intro p hp
  unfold sessionProblems at hp
  rw [List.mem_append, List.mem_append] at hp
  rcases hp with (hp | hp) | hp <;> split_ifs at hp <;> simp_all

/-- The issue list before sorting projects onto exactly the flagged
sessions, in order. -/
theorem issues_map_session (sessions : List Session) :
    ((sessions.filterMap fun session =>
      let problems := sessionProblems session
      if 0 < problems.length then some (mkIssue session problems)
      else none).map Issue.session)
      = sessions.filter attentionFlag := by
  induction sessions with
  | nil => rfl
  | cons s rest ih =>
    by_cases h : 0 < (sessionProblems s).length
    · have hflag : attentionFlag s = true := (sessionProblems_pos_iff s).mp h
      simp only [List.filterMap_cons, if_pos h, List.map_cons,
        List.filter_cons, hflag, if_pos]
      exact congrArg (List.cons s) ih
    · have hflag : ¬ attentionFlag s = true := fun hf =>
        h ((sessionProblems_pos_iff s).mpr hf)
      simp only [List.filterMap_cons, if_neg h, List.filter_cons]
      rw [if_neg (by simpa using hflag)]
      exact ih

/-- The stable ascending sort fixes singletons. -/
theorem jsSortAscBy_singleton (key : α → ℚ) (x : α) :
    jsSortAscBy key [x] = [x] := by
  unfold jsSortAscBy ascTagged
  rw [show List.enum [x] = [(0, x)] from rfl, List.mergeSort_singleton]
  rfl

/-- Lemma: `getSessionsNeedingAttention` on one flagged session. -/
theorem needingAttentionFn_singleton_pos (s : Session)
    (h : 0 < (sessionProblems s).length) :
    needingAttentionFn [s] = [mkIssue s (sessionProblems s)] := by
  have h' : (if 0 < (sessionProblems s).length then
      some (mkIssue s (sessionProblems s)) else none)
      = some (mkIssue s (sessionProblems s)) := if_pos h
  unfold needingAttentionFn
  simp only [List.filterMap_cons, List.filterMap_nil, h']
  exact jsSortAscBy_singleton _ _

/-- Lemma: `getSessionsNeedingAttention` on one unflagged session. -/
theorem needingAttentionFn_singleton_neg (s : Session)
    (h : ¬ 0 < (sessionProblems s).length) :
    needingAttentionFn [s] = [] := by
  have h' : (if 0 < (sessionProblems s).length then
      some (mkIssue s (sessionProblems s)) else none) = none := if_neg h
  unfold needingAttentionFn
  simp only [List.filterMap_cons, List.filterMap_nil, h']
  simp [jsSortAscBy, ascTagged]

/-- Claim C2 (counterexample).  A session whose `averageRating` is `0` —
below 3 — is not flagged at all, because the code's
`session.averageRating && session.averageRating < 3` test treats the falsy
rating `0` as "no rating": with healthy attendance and engagement the
returned issue list is empty. -/
theorem needingAttention_zeroRating_not_flagged :
    zeroRatingSession.averageRating.getD 99 < 3 ∧
    (getSessionsNeedingAttention [] 0 [zeroRatingSession]).1 = .issues [] := by
  constructor
  · norm_num [zeroRatingSession, defaultSession]
  · show SAValue.issues (needingAttentionFn [zeroRatingSession]) = .issues []
    rw [needingAttentionFn_singleton_neg zeroRatingSession (by
      norm_num [sessionProblems, ratingFlag, zeroRatingSession, defaultSession,
        jsLt])]

set_option maxHeartbeats 1000000 in
/-- Claim C2 (amended).  `getSessionsNeedingAttention` flags exactly the
sessions with `attendanceRate < 50`, `engagement < 60`, or a *truthy*
(non-zero, present) `averageRating` below 3; every recorded problem is
tagged `high` or `medium`; the issue list is sorted with `high` overall
severity first; and on the spec's test session
(`attendanceRate = 20, engagement = 35, rating = 2`) it returns a single
issue of overall severity `high` carrying at least one recommended action
for each of the three problem categories. -/
theorem needingAttention_spec_amended :
    (∀ sessions : List Session,
      ((needingAttentionFn sessions).map Issue.session).Perm
        (sessions.filter attentionFlag)) ∧
    (∀ sessions : List Session,
      (needingAttentionFn sessions).Pairwise fun a b =>
        severityOrder a.overallSeverity ≤ severityOrder b.overallSeverity) ∧
    (∀ sessions : List Session, ∀ i ∈ needingAttentionFn sessions,
      ∀ p ∈ i.problems, p.severity = .high ∨ p.severity = .medium) ∧
    ((getSessionsNeedingAttention [] 0 [testSession]).1
        = .issues (needingAttentionFn [testSession]) ∧
      (needingAttentionFn [testSession]).map Issue.overallSeverity = [.high] ∧
      ∀ i ∈ needingAttentionFn [testSession],
        "Send reminder notifications to registered attendees"
            ∈ i.recommendedActions ∧
          "Encourage speaker to increase interactivity"
            ∈ i.recommendedActions ∧
          "Collect detailed feedback from attendees"
            ∈ i.recommendedActions) := by
  have htest : 0 < (sessionProblems testSession).length := by
    norm_num [sessionProblems, ratingFlag, testSession, defaultSession, jsLt]
  refine ⟨?_, ?_, ?_, rfl, ?_, ?_⟩
  · intro sessions
    have hperm := jsSortAscBy_perm
      (fun i => severityOrder i.overallSeverity)
      (sessions.filterMap fun session =>
        let problems := sessionProblems session
        if 0 < problems.length then some (mkIssue session problems) else none)
    have := hperm.map Issue.session
    rw [issues_map_session] at this
    exact this
  · intro sessions
    exact jsSortAscBy_pairwise _ _
  · intro sessions i hi p hp
    unfold needingAttentionFn at hi
    have hi' := (jsSortAscBy_perm
      (fun i : Issue => severityOrder i.overallSeverity)
      (sessions.filterMap fun session =>
        let problems := sessionProblems session
        if 0 < problems.length then some (mkIssue session problems)
        else none)).mem_iff.mp hi
    rw [List.mem_filterMap] at hi'
    obtain ⟨s, -, hs⟩ := hi'
    by_cases h : 0 < (sessionProblems s).length
    · rw [if_pos h] at hs
      have : i.problems = sessionProblems s := by
        rw [← Option.some_inj.mp hs]
        rfl
      rw [this] at hp
      exact sessionProblems_severity s p hp
    · rw [if_neg h] at hs
      exact absurd hs (by simp)
  · rw [needingAttentionFn_singleton_pos testSession htest]
    norm_num [mkIssue, sessionProblems, ratingFlag, testSession,
      defaultSession, jsLt]
  · intro i hi
    rw [needingAttentionFn_singleton_pos testSession htest,
      List.mem_singleton] at hi
    subst hi
    refine ⟨?_, ?_, ?_⟩ <;>
      norm_num [mkIssue, getRecommendedActions, sessionProblems, ratingFlag,
        testSession, defaultSession, jsLt]

/-! ## C5/C6: per-pass preservation lemmas -/

theorem attendanceStep_status (chT r : ℚ) (s : Session) :
    (attendanceStep chT r s).status = s.status := by
  simp only [attendanceStep]
  split_ifs <;> rfl

theorem engagementStep_status (r : ℚ) (s : Session) :
    (engagementStep r s).status = s.status := by
  simp only [engagementStep]
  split_ifs <;> rfl

theorem engagementStep_att (r : ℚ) (s : Session) :
    (engagementStep r s).currentAttendance = s.currentAttendance ∧
      (engagementStep r s).capacity = s.capacity := by
  simp only [engagementStep]
  split_ifs <;> exact ⟨rfl, rfl⟩

theorem statusOrd_le_two (s : Status) : statusOrd s ≤ 2 := by
  cases s <;> simp [statusOrd]

theorem statusStep_mono (hour minute : ℚ) (s : Session) :
    statusOrd s.status ≤ statusOrd (statusStep hour minute s).status := by
  simp only [statusStep]
  split_ifs <;> simp_all [statusOrd]

/-- The status pass is a plain map over the sessions. -/
theorem simulateSessionStatusChange_getElem (o : TickOracle) (d : SimData)
    (i : ℕ) :
    (simulateSessionStatusChange o d).sessions[i]?
      = (d.sessions[i]?).map (statusStep o.hour o.minute) := by
  simp only [simulateSessionStatusChange]
  rw [List.getElem?_map]

theorem simulateAttendanceChange_statusAt (o : TickOracle) (d : SimData)
    (i : ℕ) :
    ((simulateAttendanceChange o d).sessions[i]?).map Session.status
      = (d.sessions[i]?).map Session.status := by
  simp only [simulateAttendanceChange]
  rw [List.getElem?_map, List.getElem?_enum]
  cases d.sessions[i]? <;> simp [attendanceStep_status]

theorem simulateEngagementFluctuation_statusAt (o : TickOracle) (d : SimData)
    (i : ℕ) :
    ((simulateEngagementFluctuation o d).sessions[i]?).map Session.status
      = (d.sessions[i]?).map Session.status := by
  simp only [simulateEngagementFluctuation]
  rw [List.getElem?_map, List.getElem?_enum]
  cases d.sessions[i]? <;> simp [engagementStep_status]

theorem simulateNewFeedback_statusAt (o : TickOracle) (d : SimData) (i : ℕ) :
    ((simulateNewFeedback o d).sessions[i]?).map Session.status
      = (d.sessions[i]?).map Session.status := by
  simp only [simulateNewFeedback]
  split_ifs
  · rw [List.getElem?_map]
    cases d.sessions[i]? with
    | none => rfl
    | some s =>
      simp only [Option.map_some']
      split_ifs <;> rfl
  · rfl
  · rfl

theorem simulateNewAttendee_sessions (o : TickOracle) (d : SimData) :
    (simulateNewAttendee o d).sessions = d.sessions := by
  simp only [simulateNewAttendee]
  split_ifs <;> rfl

/-- The session status at index `i`, as an `Option` over the list bound. -/
def statusAt (d : SimData) (i : ℕ) : Option Status :=
  (d.sessions[i]?).map Session.status

/-- Pointwise order on optional statuses (both absent, or both present and
ordered forward). -/
def StatusLe : Option Status → Option Status → Prop
  | none, none => True
  | some a, some b => statusOrd a ≤ statusOrd b
  | _, _ => False

theorem StatusLe.refl (x : Option Status) : StatusLe x x := by
  cases x <;> simp [StatusLe]

theorem StatusLe.trans {x y z : Option Status} (h1 : StatusLe x y)
    (h2 : StatusLe y z) : StatusLe x z := by
  cases x <;> cases y <;> cases z <;> simp_all [StatusLe]
  omega

/-- One tick only moves each session's status forward. -/
theorem tickData_statusAt (o : TickOracle) (d : SimData) (i : ℕ) :
    StatusLe (statusAt d i) (statusAt (tickData o d) i) := by
  unfold tickData
  rw [statusAt, statusAt, simulateNewAttendee_sessions,
    simulateSessionStatusChange_getElem, Option.map_map]
  have h3 := simulateNewFeedback_statusAt o
    (simulateEngagementFluctuation o (simulateAttendanceChange o d)) i
  have h2 := simulateEngagementFluctuation_statusAt o
    (simulateAttendanceChange o d) i
  have h1 := simulateAttendanceChange_statusAt o d i
  cases hd : d.sessions[i]? with
  | none =>
    rw [hd] at h1
    simp only [Option.map_none'] at h1
    cases hmid : (simulateNewFeedback o (simulateEngagementFluctuation o
        (simulateAttendanceChange o d))).sessions[i]? with
    | none => simp [hmid, StatusLe]
    | some s =>
      rw [hmid] at h3
      rw [h2, h1] at h3
      simp at h3
  | some s =>
    cases hmid : (simulateNewFeedback o (simulateEngagementFluctuation o
        (simulateAttendanceChange o d))).sessions[i]? with
    | none =>
      rw [hmid] at h3
      rw [h2, h1, hd] at h3
      simp at h3
    | some sMid =>
      rw [hmid] at h3
      rw [h2, h1, hd] at h3
      simp only [Option.map_some', Option.some_inj] at h3
      simp only [hmid, Option.map_some', Function.comp]
      show statusOrd s.status ≤ statusOrd (statusStep o.hour o.minute sMid).status
      calc statusOrd s.status = statusOrd sMid.status := by rw [h3]
        _ ≤ _ := statusStep_mono o.hour o.minute sMid

/-- Any sequence of ticks only moves each session's status forward. -/
theorem ticks_statusAt (os : List TickOracle) (d : SimData) (i : ℕ) :
    StatusLe (statusAt d i) (statusAt (ticks os d) i) := by
  induction os generalizing d with
  | nil => exact StatusLe.refl _
  | cons o rest ih =>
    exact (tickData_statusAt o d i).trans (ih (tickData o d))

/-- The sessions regenerated by `reset()` at indices 8..14 are upcoming. -/
theorem resetSim_sessions_upcoming (env : SubscriberEnv) (g : GenOracle)
    (now : String) (st : SimState) (i : ℕ) (h8 : 8 ≤ i) (h15 : i < 15) :
    ((resetSim env g now st).1.data.sessions[i]?).map Session.status
      = some .upcoming := by
  show ((generateInitialData g).sessions[i]?).map Session.status = _
  simp only [generateInitialData]
  rw [List.getElem?_map, List.getElem?_map, Option.map_map, Option.map_map]
  rw [List.getElem?_range h15]
  simp only [Option.map_some', Function.comp]
  show some (generateSession (g.sRnd i) (i + 1) i).status = _
  simp only [generateSession]
  rw [if_neg (by omega), if_neg (by omega)]

/-- Claim C6.**  Across any sequence of ticks, each session's status only moves
forward along upcoming → active → completed: the status order never
decreases, a session that ends up `upcoming` was already `upcoming`,
`completed` is terminal, and `reset()` — which regenerates the dataset —
restores sessions (indices 8..14 of the fresh generation) to `upcoming`. -/
theorem status_forward_only :
    (∀ (os : List TickOracle) (d : SimData) (i : ℕ) (s sB : Session),
      d.sessions[i]? = some s → (ticks os d).sessions[i]? = some sB →
      statusOrd s.status ≤ statusOrd sB.status) ∧
    (∀ (os : List TickOracle) (d : SimData) (i : ℕ) (s sB : Session),
      d.sessions[i]? = some s → (ticks os d).sessions[i]? = some sB →
      sB.status = .upcoming → s.status = .upcoming) ∧
    (∀ (os : List TickOracle) (d : SimData) (i : ℕ) (s sB : Session),
      d.sessions[i]? = some s → (ticks os d).sessions[i]? = some sB →
      s.status = .completed → sB.status = .completed) ∧
    (∀ (env : SubscriberEnv) (g : GenOracle) (now : String) (st : SimState)
      (i : ℕ), 8 ≤ i → i < 15 →
      ((resetSim env g now st).1.data.sessions[i]?).map Session.status
        = some .upcoming) := by
  have hmain : ∀ (os : List TickOracle) (d : SimData) (i : ℕ) (s sB : Session),
      d.sessions[i]? = some s → (ticks os d).sessions[i]? = some sB →
      statusOrd s.status ≤ statusOrd sB.status := by
    intro os d i s sB hs hsB
    have h := ticks_statusAt os d i
    rw [statusAt, statusAt, hs, hsB] at h
    exact h
  refine ⟨hmain, ?_, ?_, resetSim_sessions_upcoming⟩
  · intro os d i s sB hs hsB hup
    have h := hmain os d i s sB hs hsB
    rw [hup] at h
    cases hcase : s.status <;> rw [hcase] at h <;> simp [statusOrd] at h ⊢
  · intro os d i s sB hs hsB hc
    have h := hmain os d i s sB hs hsB
    rw [hc] at h
    have h2 := statusOrd_le_two sB.status
    cases hcase : sB.status <;> rw [hcase] at h <;>
      simp [statusOrd] at h ⊢

/-- Witness for C6 at a concrete state, tick sequence and index. -/
theorem status_forward_only_witness :
    ((8:ℕ) ≤ 9 ∧ (9:ℕ) < 15) ∧
    ((resetSim env0 g0 "now" st0).1.data.sessions[9]?).map Session.status
      = some .upcoming :=
  ⟨⟨by norm_num, by norm_num⟩,
    status_forward_only.2.2.2 env0 g0 "now" st0 9 (by norm_num) (by norm_num)⟩

/-! ## C5: attendance bounds -/

/-- The claimed invariant `0 <= currentAttendance <= capacity`. -/
def attBounds (s : Session) : Prop :=
  0 ≤ s.currentAttendance ∧ s.currentAttendance ≤ s.capacity

theorem snd_mem_of_mem_enum {l : List α} {p : ℕ × α} (h : p ∈ l.enum) :
    p.2 ∈ l := by
  rw [List.mem_enum_iff_getElem?] at h
  exact List.getElem?_mem h

/-- The attendance-drift step keeps `0 <= currentAttendance <= capacity`
for any change-type draw and any non-negative amount draw. -/
theorem attendanceStep_bounds {chT r : ℚ} (hr : 0 ≤ r) {s : Session}
    (h : attBounds s) : attBounds (attendanceStep chT r s) := by
  obtain ⟨h0, hc⟩ := h
  have hcap : (0:ℚ) ≤ s.capacity := h0.trans hc
  simp only [attendanceStep]
  split_ifs with hact hinc hdec
  · have hch : (0:ℚ) ≤ ((⌊r * min 5 (s.capacity - s.currentAttendance)⌋ : ℤ) : ℚ) := by
      have : (0:ℤ) ≤ ⌊r * min 5 (s.capacity - s.currentAttendance)⌋ :=
        Int.floor_nonneg.mpr
          (mul_nonneg hr (le_min (by norm_num) (by linarith)))
      exact_mod_cast this
    exact ⟨le_min hcap (by linarith), min_le_left _ _⟩
  · have hch : (0:ℚ) ≤ ((⌊r * min 3 s.currentAttendance⌋ : ℤ) : ℚ) := by
      have : (0:ℤ) ≤ ⌊r * min 3 s.currentAttendance⌋ :=
        Int.floor_nonneg.mpr (mul_nonneg hr (le_min (by norm_num) h0))
      exact_mod_cast this
    exact ⟨le_max_left _ _, max_le hcap (by linarith)⟩
  · exact ⟨h0, hc⟩
  · exact ⟨h0, hc⟩

/-- The status-transition step keeps the invariant (the ~30% seeding lands
in `[0, capacity]`). -/
theorem statusStep_bounds {hour minute : ℚ} {s : Session}
    (h : attBounds s) : attBounds (statusStep hour minute s) := by
  obtain ⟨h0, hc⟩ := h
  have hcap : (0:ℚ) ≤ s.capacity := h0.trans hc
  simp only [statusStep]
  split_ifs
  · constructor
    · have : (0:ℤ) ≤ ⌊s.capacity * (3/10)⌋ :=
        Int.floor_nonneg.mpr (mul_nonneg hcap (by norm_num))
      show (0:ℚ) ≤ ((⌊s.capacity * (3/10)⌋ : ℤ) : ℚ)
      exact_mod_cast this
    · show ((⌊s.capacity * (3/10)⌋ : ℤ) : ℚ) ≤ s.capacity
      calc ((⌊s.capacity * (3/10)⌋ : ℤ) : ℚ) ≤ s.capacity * (3/10) :=
            Int.floor_le _
        _ ≤ s.capacity := mul_le_of_le_one_right hcap (by norm_num)
  · exact ⟨h0, hc⟩
  · exact ⟨h0, hc⟩
  · exact ⟨h0, hc⟩
  · exact ⟨h0, hc⟩

/-- A generated session satisfies the invariant when its two draws lie in
`[0, 1)`. -/
theorem generateSession_bounds (rnd : ℕ → ℚ) (id index : ℕ)
    (h0 : 0 ≤ rnd 0) (h1 : 0 ≤ rnd 1) (h1b : rnd 1 < 1) :
    attBounds (generateSession rnd id index) := by
  have hfl : (0:ℤ) ≤ ⌊rnd 0 * 150⌋ :=
    Int.floor_nonneg.mpr (mul_nonneg h0 (by norm_num))
  have hflq : (0:ℚ) ≤ ((⌊rnd 0 * 150⌋ : ℤ) : ℚ) := by exact_mod_cast hfl
  have hcap : (0:ℚ) < 50 + ((⌊rnd 0 * 150⌋ : ℤ) : ℚ) := by linarith
  constructor
  · show (0:ℚ) ≤ ((⌊(50 + ((⌊rnd 0 * 150⌋ : ℤ) : ℚ)) * (1/2 + rnd 1 * (1/2))⌋ : ℤ) : ℚ)
    have : (0:ℤ) ≤ ⌊(50 + ((⌊rnd 0 * 150⌋ : ℤ) : ℚ)) * (1/2 + rnd 1 * (1/2))⌋ :=
      Int.floor_nonneg.mpr (mul_nonneg hcap.le (by linarith))
    exact_mod_cast this
  · show ((⌊(50 + ((⌊rnd 0 * 150⌋ : ℤ) : ℚ)) * (1/2 + rnd 1 * (1/2))⌋ : ℤ) : ℚ)
      ≤ 50 + ((⌊rnd 0 * 150⌋ : ℤ) : ℚ)
    have hlt : (50 + ((⌊rnd 0 * 150⌋ : ℤ) : ℚ)) * (1/2 + rnd 1 * (1/2))
        < (50 + ((⌊rnd 0 * 150⌋ : ℤ) : ℚ)) * 1 := by
      apply mul_lt_mul_of_pos_left _ hcap
      linarith
    calc ((⌊(50 + ((⌊rnd 0 * 150⌋ : ℤ) : ℚ)) * (1/2 + rnd 1 * (1/2))⌋ : ℤ) : ℚ)
          ≤ (50 + ((⌊rnd 0 * 150⌋ : ℤ) : ℚ)) * (1/2 + rnd 1 * (1/2)) :=
        Int.floor_le _
      _ ≤ 50 + ((⌊rnd 0 * 150⌋ : ℤ) : ℚ) := by linarith

/-- Membership transfer through the feedback pass: only the `feedback`
field of at most one session changes. -/
theorem simulateNewFeedback_mem {o : TickOracle} {d : SimData} {sB : Session}
    (h : sB ∈ (simulateNewFeedback o d).sessions) :
    ∃ s ∈ d.sessions, sB.currentAttendance = s.currentAttendance ∧
      sB.capacity = s.capacity := by
  simp only [simulateNewFeedback] at h
  split_ifs at h
  · rw [List.mem_map] at h
    obtain ⟨s, hs, rfl⟩ := h
    refine ⟨s, hs, ?_⟩
    split_ifs <;> exact ⟨rfl, rfl⟩
  · exact ⟨sB, h, rfl, rfl⟩
  · exact ⟨sB, h, rfl, rfl⟩

/-- Claim C5.**  `0 <= currentAttendance <= capacity` holds for every session
in the generator's initial output (for draws in `[0, 1)`), and is
preserved by the full five-pass tick for any tick oracle whose attendance
amount draws are non-negative. -/
theorem attendance_bounds_invariant :
    (∀ g : GenOracle, (∀ i k, 0 ≤ g.sRnd i k ∧ g.sRnd i k < 1) →
      ∀ s ∈ (generateInitialData g).sessions, attBounds s) ∧
    (∀ o : TickOracle, (∀ i, 0 ≤ (o.attRnd i).2) → ∀ d : SimData,
      (∀ s ∈ d.sessions, attBounds s) →
      ∀ s ∈ (tickData o d).sessions, attBounds s) := by
  constructor
  · intro g hg s hs
    simp only [generateInitialData, List.mem_map] at hs
    obtain ⟨s0, hs0, rfl⟩ := hs
    obtain ⟨i, -, rfl⟩ := hs0
    have h := generateSession_bounds (g.sRnd i) (i + 1) i
      (hg i 0).1 (hg i 1).1 (hg i 1).2
    exact ⟨h.1, h.2⟩
  · intro o ho d hd sB hsB
    -- peel the five passes from the outside in
    rw [show tickData o d = simulateNewAttendee o (simulateSessionStatusChange
      o (simulateNewFeedback o (simulateEngagementFluctuation o
        (simulateAttendanceChange o d)))) from rfl,
      simulateNewAttendee_sessions] at hsB
    simp only [simulateSessionStatusChange, List.mem_map] at hsB
    obtain ⟨s3, hs3, rfl⟩ := hsB
    refine statusStep_bounds ?_
    obtain ⟨s2, hs2, hatt2, hcap2⟩ := simulateNewFeedback_mem hs3
    have hb2 : attBounds s2 → attBounds s3 := by
      intro hb
      exact ⟨hatt2 ▸ hb.1, hcap2 ▸ hatt2 ▸ hb.2⟩
    refine hb2 ?_
    simp only [simulateEngagementFluctuation, List.mem_map] at hs2
    obtain ⟨p, hp, rfl⟩ := hs2
    have hmem1 : p.2 ∈ (simulateAttendanceChange o d).sessions :=
      snd_mem_of_mem_enum hp
    have hb1 : attBounds p.2 → attBounds (engagementStep (o.engRnd p.1) p.2) := by
      intro hb
      have he := engagementStep_att (o.engRnd p.1) p.2
      exact ⟨he.1 ▸ hb.1, he.2 ▸ he.1 ▸ hb.2⟩
    refine hb1 ?_
    simp only [simulateAttendanceChange, List.mem_map] at hmem1
    obtain ⟨q, hq, heq⟩ := hmem1
    rw [← heq]
    exact attendanceStep_bounds (ho q.1) (hd q.2 (snd_mem_of_mem_enum hq))

/-- Witness for C5 at the all-zero generator oracle and the fixture tick. -/
theorem attendance_bounds_invariant_witness :
    ((∀ i k, 0 ≤ g0.sRnd i k ∧ g0.sRnd i k < 1) ∧ (∀ i, 0 ≤ (o0.attRnd i).2)) ∧
    ∀ s ∈ (tickData o0 (generateInitialData g0)).sessions, attBounds s := by
  have hg : ∀ i k, 0 ≤ g0.sRnd i k ∧ g0.sRnd i k < 1 := by
    intro i k
    constructor <;> norm_num [g0]
  have ho : ∀ i, 0 ≤ (o0.attRnd i).2 := by
    intro i
    norm_num [o0]
  exact ⟨⟨hg, ho⟩, attendance_bounds_invariant.2 o0 ho (generateInitialData g0)
    (attendance_bounds_invariant.1 g0 hg)⟩

/-! ## C7: attendee registrations -/

/-- The 15 generated sessions, before the feedback back-fill. -/
def sessions0g (g : GenOracle) : List Session :=
  (List.range 15).map fun i => generateSession (g.sRnd i) (i + 1) i

theorem gen_attendees_eq (g : GenOracle) :
    (generateInitialData g).attendees
      = (List.range 847).map fun i => (mkAttendeeData (sessions0g g) g i).1 := by
  simp only [generateInitialData, sessions0g, List.map_map]
  rfl

/-- Claim C7 (counterexample).  The registration loop skips a duplicate pick
instead of redrawing: with the all-zero oracle every pick lands on the
same session, so attendee 0 of `generateInitialData` ends up with a single
registered session — fewer than the claimed minimum of 2. -/
theorem attendee_registration_collision :
    ((generateInitialData g0).attendees.getD 0
        defaultAttendee).registeredSessions.length = 1 ∧ (1:ℕ) < 2 := by
  refine ⟨?_, by norm_num⟩
  rw [gen_attendees_eq]
  rw [List.getD_eq_getElem _ _ (by simp)]
  rw [List.getElem_map]
  simp only [List.getElem_range]
  norm_num [mkAttendeeData, g0, regStep, List.range_succ, sessions0g,
    List.getD_eq_getElem?_getD, List.getElem?_map, List.getElem?_range,
    generateSession]

/-- One registration-loop step either skips (the picked id is already
selected) or appends the picked id. -/
theorem regStep_selected_cases (sessions : List Session) (g : GenOracle)
    (i : ℕ) (a b : String) (acc : List String × List String × List Feedback)
    (j : ℕ) :
    ((regStep sessions g i a b acc j).1 = acc.1 ∧
      (sessions.getD (⌊g.aRnd i (7 + 3 * j) * (sessions.length : ℚ)⌋).toNat
        defaultSession).id ∈ acc.1) ∨
    ∃ x, x ∉ acc.1 ∧ (regStep sessions g i a b acc j).1 = acc.1 ++ [x] := by
  rcases acc with ⟨sel, att, fbs⟩
  simp only [regStep]
  split_ifs with h1 h2 h3
  · exact Or.inl ⟨rfl, h1⟩
  · exact Or.inr ⟨_, h1, rfl⟩
  · exact Or.inr ⟨_, h1, rfl⟩
  · exact Or.inr ⟨_, h1, rfl⟩

/-- Registration-fold invariants: the selected list stays duplicate-free,
never shrinks, and grows by at most one per iteration. -/
theorem foldl_regStep_facts (sessions : List Session) (g : GenOracle)
    (i : ℕ) (a b : String) :
    ∀ (js : List ℕ) (acc : List String × List String × List Feedback),
      acc.1.Nodup →
      ((js.foldl (regStep sessions g i a b) acc).1.Nodup ∧
        acc.1.length ≤ (js.foldl (regStep sessions g i a b) acc).1.length ∧
        (js.foldl (regStep sessions g i a b) acc).1.length
          ≤ acc.1.length + js.length) := by
  intro js
  induction js with
  | nil => intro acc h; exact ⟨h, le_refl _, by simp⟩
  | cons j rest ih =>
    intro acc h
    rw [List.foldl_cons]
    rcases regStep_selected_cases sessions g i a b acc j with ⟨heq, -⟩ |
      ⟨x, hx, heq⟩
    · have hstep := ih (regStep sessions g i a b acc j) (heq ▸ h)
      have e1 : (regStep sessions g i a b acc j).1.length = acc.1.length := by
        rw [heq]
      obtain ⟨hn, g1, g2⟩ := hstep
      rw [e1] at g1 g2
      refine ⟨hn, g1, ?_⟩
      simp only [List.length_cons]
      omega
    · have hnodup : (regStep sessions g i a b acc j).1.Nodup := by
        rw [heq]
        simp [List.nodup_append, h, hx]
      have e1 : (regStep sessions g i a b acc j).1.length
          = acc.1.length + 1 := by rw [heq]; simp
      obtain ⟨hn, g1, g2⟩ := ih (regStep sessions g i a b acc j) hnodup
      rw [e1] at g1 g2
      refine ⟨hn, by omega, ?_⟩
      simp only [List.length_cons]
      omega

/-- Starting from the empty selection, a non-empty iteration list yields at
least one registration (the first pick is never a duplicate). -/
theorem foldl_regStep_ne_nil (sessions : List Session) (g : GenOracle)
    (i : ℕ) (a b : String) (js : List ℕ) (hjs : js ≠ []) :
    1 ≤ ((js.foldl (regStep sessions g i a b) ([], [], [])).1).length := by
  cases js with
  | nil => exact absurd rfl hjs
  | cons j rest =>
    rw [List.foldl_cons]
    rcases regStep_selected_cases sessions g i a b ([], [], []) j with
      ⟨-, hmem⟩ | ⟨x, -, heq⟩
    · cases hmem
    · have hnodup : (regStep sessions g i a b ([], [], []) j).1.Nodup := by
        rw [heq]; simp
      have hstep := foldl_regStep_facts sessions g i a b rest _ hnodup
      have hlen : (regStep sessions g i a b ([], [], []) j).1.length = 1 := by
        rw [heq]; simp
      omega

/-- Claim C7 (amended).  For draws in `[0, 1)`, every attendee produced by
`generateInitialData` has between 1 and 5 registered session ids (the
2–5 draws are deduplicated, and collisions can drop the count to 1, never
to 0) with no duplicate ids. -/
theorem attendee_registrations_amended :
    ∀ g : GenOracle, (∀ i k, 0 ≤ g.aRnd i k ∧ g.aRnd i k < 1) →
    ∀ a ∈ (generateInitialData g).attendees,
      1 ≤ a.registeredSessions.length ∧ a.registeredSessions.length ≤ 5 ∧
        a.registeredSessions.Nodup := by
  intro g hg a ha
  rw [gen_attendees_eq] at ha
  obtain ⟨i, -, rfl⟩ := List.mem_map.mp ha
  simp only [mkAttendeeData]
  have hcount : 2 + (⌊g.aRnd i 6 * 4⌋).toNat ≤ 5 := by
    have h4 : ⌊g.aRnd i 6 * 4⌋ < 4 := by
      rw [Int.floor_lt]
      push_cast
      nlinarith [(hg i 6).1, (hg i 6).2]
    omega
  have hfacts := foldl_regStep_facts (sessions0g g) g i
    (generateAttendee (g.aRnd i) (i + 1) g.nowStr).id
    (generateAttendee (g.aRnd i) (i + 1) g.nowStr).name
    (List.range (2 + (⌊g.aRnd i 6 * 4⌋).toNat)) ([], [], []) (by simp)
  have hne := foldl_regStep_ne_nil (sessions0g g) g i
    (generateAttendee (g.aRnd i) (i + 1) g.nowStr).id
    (generateAttendee (g.aRnd i) (i + 1) g.nowStr).name
    (List.range (2 + (⌊g.aRnd i 6 * 4⌋).toNat))
    (by simp [List.range_eq_nil])
  refine ⟨hne, ?_, hfacts.1⟩
  have := hfacts.2.2
  simp only [List.length_range, List.length_nil] at this
  omega

/-- Witness for the amended C7 at the all-zero oracle's first attendee. -/
theorem attendee_registrations_amended_witness :
    (∀ i k, 0 ≤ g0.aRnd i k ∧ g0.aRnd i k < 1) ∧
    (1 ≤ ((generateInitialData g0).attendees.getD 0
        defaultAttendee).registeredSessions.length ∧
      ((generateInitialData g0).attendees.getD 0
        defaultAttendee).registeredSessions.length ≤ 5 ∧
      ((generateInitialData g0).attendees.getD 0
        defaultAttendee).registeredSessions.Nodup) := by
  have hg : ∀ i k, 0 ≤ g0.aRnd i k ∧ g0.aRnd i k < 1 := by
    intro i k
    constructor <;> norm_num [g0]
  have hmem : (generateInitialData g0).attendees.getD 0 defaultAttendee
      ∈ (generateInitialData g0).attendees := by
    have hlen : 0 < (generateInitialData g0).attendees.length := by
      rw [gen_attendees_eq]
      simp
    rw [List.getD_eq_getElem _ _ hlen]
    exact List.getElem_mem hlen
  exact ⟨hg, attendee_registrations_amended g0 hg _ hmem⟩

/-! ## C8: top-session ranking -/

theorem metricKey_attendance (s : Session) :
    metricKey "attendance" s = s.currentAttendance := by
  simp [metricKey]

/-- With the entry for `key` missing or expired, `getCachedOrCompute`
recomputes. -/
theorem getCachedOrCompute_stale {α δ : Type} (c : Cache α) (now : ℚ)
    (key : String) (f : δ → α) (data : δ)
    (h : ∀ e, cacheGet c key = some e → 5000 ≤ now - e.timestamp) :
    (getCachedOrCompute c now key f data).1 = f data ∧
    (getCachedOrCompute c now key f data).2.2 = true := by
  unfold getCachedOrCompute
  cases hc : cacheGet c key with
  | none =>
    simp only [hc]
    exact ⟨by trivial, by trivial⟩
  | some e =>
    have h5 := h e hc
    simp only [hc]
    rw [if_neg (by linarith)]
    exact ⟨by trivial, by trivial⟩

/-- The `i`-th ranked entry: the `i`-th element of the stable descending
sort, with `rank = i + 1` and the percentile formula at position `i`. -/
theorem topSessionsFn_getElem (metric : String) (limit : ℕ)
    (data : List Session) (hnd' : data.Nodup) (i : ℕ)
    (hi : i < min limit data.length) :
    (topSessionsFn metric limit data)[i]?
      = some ⟨(jsSortDescBy (metricKey metric) data).getD i defaultSession,
          (i : ℤ) + 1,
          jsRound ((((data.length : ℚ) - (i : ℚ)) /
            (data.length : ℚ)) * 100)⟩ := by
  have hlen : ¬ data.length = 0 := by omega
  have hslen := jsSortDescBy_length (metricKey metric) data
  have hlt2 : i < (jsSortDescBy (metricKey metric) data).length := by omega
  have hsnodup : (jsSortDescBy (metricKey metric) data).Nodup :=
    ((jsSortDescBy_perm (metricKey metric) data).nodup_iff).mpr hnd'
  have hidx : jsIndexOf (jsSortDescBy (metricKey metric) data)
      ((jsSortDescBy (metricKey metric) data).getD i defaultSession)
      = (i : ℤ) := by
    rw [List.getD_eq_getElem _ _ hlt2]
    unfold jsIndexOf
    rw [if_pos (List.getElem_mem hlt2)]
    exact_mod_cast List.indexOf_getElem hsnodup i hlt2
  unfold topSessionsFn
  rw [if_neg hlen, List.getElem?_map, List.getElem?_take, if_pos (by omega),
    List.getElem?_eq_getElem hlt2]
  simp only [Option.map_some']
  rw [← List.getD_eq_getElem _ defaultSession hlt2, hidx]
  norm_num

/-- Claim C8.**  With its cache entry missing or expired, `getTopSessions` on
the attendance metric computes the ranking: the result has exactly
`min limit sessions.length` entries, is sorted descending by
`currentAttendance` with ties kept in original array order (stable sort),
contains no duplicate session ids (for duplicate-free input ids), and its
`i`-th entry carries `rank = i + 1` and the code's percentile for
position `i`. -/
theorem getTopSessions_ranking_spec (c : Cache SAValue) (now : ℚ)
    (sessions : List Session) (limit : ℕ)
    (hnd : (sessions.map Session.id).Nodup)
    (hstale : ∀ e, cacheGet c
      ("topSessions_" ++ "attendance" ++ "_" ++ toString limit) = some e →
      5000 ≤ now - e.timestamp) :
    (getTopSessions c now sessions "attendance" limit).1
        = .ranked (topSessionsFn "attendance" limit sessions) ∧
    (topSessionsFn "attendance" limit sessions).length
        = min limit sessions.length ∧
    ((topSessionsFn "attendance" limit sessions).map
        fun r => r.session.id).Nodup ∧
    (topSessionsFn "attendance" limit sessions).Pairwise
      (fun a b => b.session.currentAttendance ≤ a.session.currentAttendance) ∧
    (topSessionsFn "attendance" limit sessions).Pairwise
      (fun a b => a.session.currentAttendance = b.session.currentAttendance →
        jsIndexOf sessions a.session ≤ jsIndexOf sessions b.session) ∧
    (∀ i (h : i < (topSessionsFn "attendance" limit sessions).length),
      ((topSessionsFn "attendance" limit sessions).get ⟨i, h⟩).rank
          = (i : ℤ) + 1 ∧
      ((topSessionsFn "attendance" limit sessions).get ⟨i, h⟩).percentile
          = jsRound ((((sessions.length : ℚ) - (i : ℚ)) /
              (sessions.length : ℚ)) * 100)) := by
  have hcache := getCachedOrCompute_stale c now
    ("topSessions_" ++ "attendance" ++ "_" ++ toString limit)
    (fun data => SAValue.ranked (topSessionsFn "attendance" limit data))
    sessions hstale
  have hnd' : sessions.Nodup := hnd.of_map
  have hsortedNodup : (jsSortDescBy (metricKey "attendance") sessions).Nodup :=
    ((jsSortDescBy_perm (metricKey "attendance") sessions).nodup_iff).mpr hnd'
  have hsortedLen := jsSortDescBy_length (metricKey "attendance") sessions
  have hlenEq : (topSessionsFn "attendance" limit sessions).length
      = min limit sessions.length := by
    by_cases hlen : sessions.length = 0
    · simp only [topSessionsFn]
      rw [if_pos hlen]
      simp [hlen]
    · simp only [topSessionsFn]
      rw [if_neg hlen]
      simp [List.length_take, hsortedLen]
  refine ⟨hcache.1, hlenEq, ?_, ?_, ?_, ?_⟩
  · by_cases hlen : sessions.length = 0
    · simp only [topSessionsFn]
      rw [if_pos hlen]
      simp
    · simp only [topSessionsFn]
      rw [if_neg hlen, List.map_map]
      refine List.Nodup.sublist (List.Sublist.map _ (List.take_sublist limit
        (jsSortDescBy (metricKey "attendance") sessions))) ?_
      exact (((jsSortDescBy_perm (metricKey "attendance") sessions).map
        Session.id).nodup_iff).mpr hnd
  · by_cases hlen : sessions.length = 0
    · simp only [topSessionsFn]
      rw [if_pos hlen]
      simp
    · simp only [topSessionsFn]
      rw [if_neg hlen, List.pairwise_map]
      refine List.Pairwise.sublist (List.take_sublist limit _) ?_
      refine (jsSortDescBy_pairwise (metricKey "attendance") sessions).imp ?_
      intro a b hab
      rw [metricKey_attendance, metricKey_attendance] at hab
      exact hab
  · by_cases hlen : sessions.length = 0
    · simp only [topSessionsFn]
      rw [if_pos hlen]
      simp
    · simp only [topSessionsFn]
      rw [if_neg hlen, List.pairwise_map]
      refine List.Pairwise.sublist (List.take_sublist limit _) ?_
      refine (jsSortDescBy_stable (metricKey "attendance") sessions hnd').imp ?_
      intro a b hab hk
      refine hab ?_
      rw [metricKey_attendance, metricKey_attendance]
      exact hk
  · intro i h
    have hi : i < min limit sessions.length := by rwa [hlenEq] at h
    have hsome := topSessionsFn_getElem "attendance" limit sessions hnd' i hi
    have hval := List.getElem?_eq_getElem
      (l := topSessionsFn "attendance" limit sessions) h
    rw [hsome] at hval
    have hitem : (topSessionsFn "attendance" limit sessions).get ⟨i, h⟩
        = ⟨(jsSortDescBy (metricKey "attendance") sessions).getD i
            defaultSession, (i : ℤ) + 1,
            jsRound ((((sessions.length : ℚ) - (i : ℚ)) /
              (sessions.length : ℚ)) * 100)⟩ := by
      rw [List.get_eq_getElem]
      exact (Option.some_inj.mp hval).symm
    rw [hitem]
    exact ⟨rfl, rfl⟩

/-- Witness for C8 at a fresh cache and a concrete session list. -/
theorem getTopSessions_ranking_spec_witness :
    (sessListA.map Session.id).Nodup ∧
    (topSessionsFn "attendance" 5 sessListA).length
      = min 5 sessListA.length := by
  have hnd : (sessListA.map Session.id).Nodup := by simp [sessListA]
  have hstale : ∀ e : CacheEntry SAValue, cacheGet ([] : Cache SAValue)
      ("topSessions_" ++ "attendance" ++ "_" ++ toString 5) = some e →
      5000 ≤ (0:ℚ) - e.timestamp := by
    intro e he
    simp [cacheGet] at he
  exact ⟨hnd, (getTopSessions_ranking_spec [] 0 sessListA 5 hnd hstale).2.1⟩

/-- Witness for the amended C2 at the spec's concrete test session. -/
theorem needingAttention_spec_amended_witness :
    "Send reminder notifications to registered attendees"
        ∈ (mkIssue testSession (sessionProblems testSession)).recommendedActions ∧
      "Encourage speaker to increase interactivity"
        ∈ (mkIssue testSession (sessionProblems testSession)).recommendedActions ∧
      "Collect detailed feedback from attendees"
        ∈ (mkIssue testSession (sessionProblems testSession)).recommendedActions := by
  refine needingAttention_spec_amended.2.2.2.2.2
    (mkIssue testSession (sessionProblems testSession)) ?_
  rw [needingAttentionFn_singleton_pos testSession (by
    norm_num [sessionProblems, ratingFlag, testSession, defaultSession, jsLt])]
  simp

end EventFlow
